import Mathlib

/-!
Verification of the AVM2 `Date` class of `src/core/src/avm2/globals/date.rs`.

Modelling conventions used throughout this development:

* Finite `f64` values are modelled by integers (`Int`): every numeric value the
  verified properties exercise is integral, and the Rust `as i64` cast
  (truncation toward zero, saturating at the `i64` bounds, sending NaN to 0)
  is modelled by `clampI64` / `f64AsI64`.  `F64.nonFinite` models NaN and the
  two infinities collectively; the code only ever branches on `is_finite()`.
* Timezones are modelled as fixed UTC offsets in whole seconds (chrono's
  `FixedOffset`, which is what `Locale::get_timezone` yields): for an offset
  `o`, local time = UTC + `o` seconds, so a UTC instant of `t` milliseconds
  corresponds to the local civil time of `t + o * 1000` milliseconds.
* An instant is its `Int` epoch-millisecond timestamp; a `DateObject`'s stored
  `Option<DateTime<Utc>>` is `Option Int`.
* chrono's proleptic-Gregorian conversions (`Datelike::year/month0/day`,
  `TimeZone::ymd_opt`) are modelled by the standard civil-from-days and
  days-from-civil algorithms, which compute the same functions as chrono's
  internal year/ordinal representation.  chrono's `NaiveDate` range is years
  `-262144..=262143`; `NaiveDateTime` range checks (`checked_add_signed`,
  `timestamp_millis_opt`) are modelled by the millisecond bounds
  `naiveMinMs`/`naiveMaxMs` derived from that range.
* `Int` division `/` and remainder `%` are Euclidean, which coincides with
  Rust's `div_euclid`/`rem_euclid` and, for the positive divisors used here,
  with floor division.
-/

/-- Model of an `f64` as the AVM2 date code observes it: a finite double
(idealised to its integer value; all values exercised here are integral) or a
non-finite one (NaN or an infinity; the code only tests `is_finite()`). -/
inductive F64 where
  | finite (v : Int)
  | nonFinite
deriving DecidableEq, Repr

/-- Rust `f64 as i64` on a finite value: truncate (identity on integers) and
saturate at the `i64` bounds. -/
def clampI64 (v : Int) : Int :=
  if v < -9223372036854775808 then -9223372036854775808
  else if 9223372036854775807 < v then 9223372036854775807
  else v

/-- Rust `f64 as i64` on any `F64`.  NaN casts to 0; the infinities saturate.
`F64.nonFinite` conflates NaN with the infinities, so we pick the NaN image:
the only use site on a non-finite value (`month_rem` in `calculate`) is
discarded, because the month check fails first. -/
def f64AsI64 : F64 → Int
  | .finite v => clampI64 v
  | .nonFinite => 0

/-- Rust `i64::wrapping_add` result normalisation: wrap into the `i64` range. -/
def wrapI64 (v : Int) : Int :=
  (v + 9223372036854775808) % 18446744073709551616 - 9223372036854775808

/-- Rust `i64 as i32`: wrap into the `i32` range. -/
def wrapI32 (v : Int) : Int :=
  (v + 2147483648) % 4294967296 - 2147483648

/-- The slice of the AVM2 value universe the `Date` entry points observe:
`undefined`, a value coercing to a number, or a value whose numeric coercion
is NaN (non-numeric strings, most objects, ...). -/
inductive AvmValue where
  | undefined
  | number (n : F64)
  | nonNumeric
deriving DecidableEq, Repr

/-- Modelled from the spec: `Value::coerce_to_number` (the repository's AVM2
numeric coercion, which lives outside `src/`).  Per the spec it "must produce
IEEE-754 double semantics including not-a-number for non-coercible inputs",
and `undefined` coerces to NaN.  Coercion of the values modelled here never
signals an error. -/
def coerceToNumber : AvmValue → F64
  | .undefined => .nonFinite
  | .number n => n
  | .nonNumeric => .nonFinite

/-! ## Proleptic-Gregorian calendar (model of chrono's conversions)

`daysFromCivil`/`civilFromDays` are the standard civil-calendar algorithms
(eras of 400 years = 146097 days); they compute exactly chrono's
`NaiveDate` ↔ day-number conversions on the proleptic Gregorian calendar.
The small helper functions name the algorithm's sub-expressions so the
correctness lemmas below can speak about them. -/

/-- Day-of-era of March 1 of the shifted year `yoe` (`0 ≤ yoe ≤ 399`). -/
def doeOfYoe (yoe : Int) : Int := 365 * yoe + yoe / 4 - yoe / 100

/-- Year-of-era extraction step of the civil-from-days algorithm. -/
def gFn (doe : Int) : Int := doe - doe / 1460 + doe / 36524 - doe / 146096

/-- Year-of-era of a day-of-era (`0 ≤ doe ≤ 146096`). -/
def yoeFromDoe (doe : Int) : Int := gFn doe / 365

/-- First day-of-era strictly above shifted year `yoe` (the era has 146097
days, so the last shifted year is closed off by the era length). -/
def upperDoe (yoe : Int) : Int := if yoe = 399 then 146097 else doeOfYoe (yoe + 1)

/-- Day-of-shifted-year on which shifted month `mp` (`0` = March) starts. -/
def doyStartOfMp (mp : Int) : Int := (153 * mp + 2) / 5

/-- Shifted month of a day-of-shifted-year. -/
def mpFromDoy (doy : Int) : Int := (5 * doy + 2) / 153

/-- Day number (days since 1970-01-01) of the civil date `(y, m, d)`,
`m` 1-based. -/
def daysFromCivil (y m d : Int) : Int :=
  let y' := y - (if m ≤ 2 then 1 else 0)
  let era := y' / 400
  let yoe := y' - era * 400
  let mp := if 2 < m then m - 3 else m + 9
  let doy := doyStartOfMp mp + d - 1
  era * 146097 + doeOfYoe yoe + doy - 719468

/-- Civil date `(y, m, d)` (`m` 1-based) of a day number. -/
def civilFromDays (z : Int) : Int × Int × Int :=
  let era := (z + 719468) / 146097
  let doe := z + 719468 - era * 146097
  let yoe := yoeFromDoe doe
  let doy := doe - doeOfYoe yoe
  let mp := mpFromDoy doy
  let d := doy - doyStartOfMp mp + 1
  let m := mp + (if mp < 10 then 3 else -9)
  (yoe + era * 400 + (if m ≤ 2 then 1 else 0), m, d)

/-- Gregorian leap-year predicate. -/
def isLeap (y : Int) : Prop := (y % 4 = 0 ∧ y % 100 ≠ 0) ∨ y % 400 = 0

instance (y : Int) : Decidable (isLeap y) := by
  unfold isLeap
  infer_instance

/-- Length of month `m` (1-based) of year `y`. -/
def monthLength (y m : Int) : Int :=
  if m = 2 then (if isLeap y then 29 else 28)
  else if m = 4 ∨ m = 6 ∨ m = 9 ∨ m = 11 then 30
  else 31

/-- Local civil day number of a local-millisecond value. -/
def epochDays (l : Int) : Int := l / 86400000

/-- Millisecond of day of a local-millisecond value. -/
def msOfDay (l : Int) : Int := l % 86400000

/-- chrono `Datelike::year` of a local-millisecond value. -/
def civilYear (l : Int) : Int := (civilFromDays (epochDays l)).1

/-- chrono `Datelike::month` (1-based). -/
def civilMonth (l : Int) : Int := (civilFromDays (epochDays l)).2.1

/-- chrono `Datelike::month0` (0-based). -/
def civilMonth0 (l : Int) : Int := civilMonth l - 1

/-- chrono `Datelike::day` (1-based). -/
def civilDay (l : Int) : Int := (civilFromDays (epochDays l)).2.2

/-- chrono `Timelike::hour`. -/
def civilHour (l : Int) : Int := msOfDay l / 3600000

/-- chrono `Timelike::minute`. -/
def civilMinute (l : Int) : Int := msOfDay l / 60000 % 60

/-- chrono `Timelike::second`. -/
def civilSecond (l : Int) : Int := msOfDay l / 1000 % 60

/-- Millisecond-of-second of a local-millisecond value; equals chrono's
`timestamp_subsec_millis` (offsets are whole seconds, so the local and UTC
subsecond parts agree). -/
def civilMilli (l : Int) : Int := l % 1000

/-- chrono `Weekday::num_days_from_sunday` (1970-01-01 was a Thursday). -/
def weekdayFromSunday (l : Int) : Int := (epochDays l + 4) % 7

/-- Smallest chrono `NaiveDate` year. -/
def chronoMinYear : Int := -262144

/-- Largest chrono `NaiveDate` year. -/
def chronoMaxYear : Int := 262143

/-- Millisecond timestamp of `NaiveDateTime::MIN` (`-262144-01-01T00:00:00`). -/
def naiveMinMs : Int := daysFromCivil (-262144) 1 1 * 86400000

/-- Millisecond timestamp of `NaiveDateTime::MAX` truncated to milliseconds
(`262143-12-31T23:59:59.999`). -/
def naiveMaxMs : Int := daysFromCivil 262143 12 31 * 86400000 + 86399999

/-! ## The `DateAdjustment` builder (src lines 15–241) -/

/-- Model of `enum YearType { Full, Adjust(Box<dyn Fn(i64) -> i64>) }`. -/
inductive YearType where
  | full
  | adjustWith (f : Int → Int)

/-- Model of `YearType::adjust`. -/
def YearType.adjust : YearType → Int → Int
  | .full, year => year
  | .adjustWith f, year => f year

/-- Model of the `DateAdjustment` builder state: seven `Option<Option<f64>>`
slots (outer `none` = keep-current, `some (some v)` = a coerced value) plus
the `ignore_next` latch and the year transform.  The timezone and activation
are passed to the operations instead of being stored. -/
structure DateAdjustment where
  yearType : YearType
  year : Option (Option F64)
  month : Option (Option F64)
  day : Option (Option F64)
  hour : Option (Option F64)
  minute : Option (Option F64)
  second : Option (Option F64)
  millisecond : Option (Option F64)
  ignoreNext : Bool

/-- Model of `DateAdjustment::new`. -/
def DateAdjustment.new : DateAdjustment :=
  { yearType := .full, year := none, month := none, day := none, hour := none,
    minute := none, second := none, millisecond := none, ignoreNext := false }

/-- Model of `DateAdjustment::adjust_year`. -/
def DateAdjustment.adjustYear (a : DateAdjustment) (f : Int → Int) : DateAdjustment :=
  { a with yearType := .adjustWith f }

/-- Model of `DateAdjustment::year` (the feed, named `feedYear` because the
structure field keeps the source's field name `year`).  A present argument is
coerced and stored; an absent argument (`None` at the call site) clears the
slot and sets the `ignore_next` latch; once the latch is set the feed is a
no-op. -/
def DateAdjustment.feedYear (a : DateAdjustment) (value : Option AvmValue) : DateAdjustment :=
  if a.ignoreNext then a
  else
    match value with
    | some v => { a with year := some (some (coerceToNumber v)) }
    | none => { a with year := none, ignoreNext := true }

/-- Model of `DateAdjustment::month`. -/
def DateAdjustment.feedMonth (a : DateAdjustment) (value : Option AvmValue) : DateAdjustment :=
  if a.ignoreNext then a
  else
    match value with
    | some v => { a with month := some (some (coerceToNumber v)) }
    | none => { a with month := none, ignoreNext := true }

/-- Model of `DateAdjustment::day`. -/
def DateAdjustment.feedDay (a : DateAdjustment) (value : Option AvmValue) : DateAdjustment :=
  if a.ignoreNext then a
  else
    match value with
    | some v => { a with day := some (some (coerceToNumber v)) }
    | none => { a with day := none, ignoreNext := true }

/-- Model of `DateAdjustment::hour`. -/
def DateAdjustment.feedHour (a : DateAdjustment) (value : Option AvmValue) : DateAdjustment :=
  if a.ignoreNext then a
  else
    match value with
    | some v => { a with hour := some (some (coerceToNumber v)) }
    | none => { a with hour := none, ignoreNext := true }

/-- Model of `DateAdjustment::minute`. -/
def DateAdjustment.feedMinute (a : DateAdjustment) (value : Option AvmValue) : DateAdjustment :=
  if a.ignoreNext then a
  else
    match value with
    | some v => { a with minute := some (some (coerceToNumber v)) }
    | none => { a with minute := none, ignoreNext := true }

/-- Model of `DateAdjustment::second`. -/
def DateAdjustment.feedSecond (a : DateAdjustment) (value : Option AvmValue) : DateAdjustment :=
  if a.ignoreNext then a
  else
    match value with
    | some v => { a with second := some (some (coerceToNumber v)) }
    | none => { a with second := none, ignoreNext := true }

/-- Model of `DateAdjustment::millisecond`. -/
def DateAdjustment.feedMillisecond (a : DateAdjustment) (value : Option AvmValue) : DateAdjustment :=
  if a.ignoreNext then a
  else
    match value with
    | some v => { a with millisecond := some (some (coerceToNumber v)) }
    | none => { a with millisecond := none, ignoreNext := true }

/-- Model of `DateAdjustment::check_value`: a specified finite value is cast
with `as i64`; a specified non-finite value fails; an unspecified slot keeps
the current field value (`to_i64` on chrono's `u32`/`i32` fields is total). -/
def checkValue (specified : Option (Option F64)) (current : Int) : Option Int :=
  match specified with
  | some (some (F64.finite v)) => some (clampI64 v)
  | some _ => none
  | none => some current

/-- Model of `DateAdjustment::check_mapped_value`: like `checkValue` but with
a map applied after the `as i64` cast of a specified finite value. -/
def checkMappedValue (specified : Option (Option F64)) (map : Int → Int) (current : Int) :
    Option Int :=
  match specified with
  | some (some (F64.finite v)) => some (map (clampI64 v))
  | some _ => none
  | none => some current

/-- Model of `DateAdjustment::calculate` against the current instant `t`
(epoch ms) viewed in the fixed-offset timezone `o` (seconds east).  Returns
the new UTC instant in epoch milliseconds, or `none` for an invalid result.
The final `chrono` steps are: `ymd_opt` (valid iff the year is in the
`NaiveDate` range; the month is already normalised to `1..=12` and the day
is 1) and `checked_add_signed` (valid iff the resulting naive UTC datetime is
in range, modelled by the millisecond bounds). -/
def DateAdjustment.calculate (a : DateAdjustment) (o t : Int) : Option Int := do
  let l := t + o * 1000
  let monthRem := (f64AsI64 <$> a.month.bind id).getD 0 / 12
  let month ← checkMappedValue a.month (fun v => v % 12) (civilMonth0 l)
  let yearBase ← checkMappedValue a.year a.yearType.adjust (civilYear l)
  let year := wrapI32 (wrapI64 (yearBase + monthRem))
  let day ← checkValue a.day (civilDay l)
  let hour ← checkValue a.hour (civilHour l)
  let minute ← checkValue a.minute (civilMinute l)
  let second ← checkValue a.second (civilSecond l)
  let millisecond ← checkValue a.millisecond (civilMilli l)
  let duration := (day - 1) * 86400000 + hour * 3600000 + minute * 60000 +
    second * 1000 + millisecond
  if chronoMinYear ≤ year ∧ year ≤ chronoMaxYear then
    let res := daysFromCivil year (month + 1) 1 * 86400000 - o * 1000 + duration
    if naiveMinMs ≤ res ∧ res ≤ naiveMaxMs then some res else none
  else none

/-- Model of `DateAdjustment::apply`: returns the new stored instant (written
back into the `DateObject`) and the `f64` the setter returns.  When the
stored instant is already `None` ("Invalid Date"), `calculate` is skipped. -/
def DateAdjustment.apply (a : DateAdjustment) (o : Int) (dt : Option Int) :
    Option Int × F64 :=
  let date := match dt with
    | some t => a.calculate o t
    | none => none
  (date, match date with | some d => F64.finite d | none => F64.nonFinite)

/-! ## Entry points (setters, constructor, `UTC` factory)

Each setter takes the timezone offset `o` (seconds east; the `_utc` variants
fix it to 0), the current stored instant and the AVM2 argument list, and
returns the new stored instant together with the returned `f64`. -/

/-- Model of `set_milliseconds`. -/
def set_milliseconds (o : Int) (dt : Option Int) (args : List AvmValue) : Option Int × F64 :=
  (DateAdjustment.new.feedMillisecond (args.get? 0)).apply o dt

/-- Model of `set_seconds`. -/
def set_seconds (o : Int) (dt : Option Int) (args : List AvmValue) : Option Int × F64 :=
  ((DateAdjustment.new.feedSecond (args.get? 0)).feedMillisecond (args.get? 1)).apply o dt

/-- Model of `set_minutes`. -/
def set_minutes (o : Int) (dt : Option Int) (args : List AvmValue) : Option Int × F64 :=
  (((DateAdjustment.new.feedMinute (args.get? 0)).feedSecond (args.get? 1)).feedMillisecond
    (args.get? 2)).apply o dt

/-- Model of `set_hours`. -/
def set_hours (o : Int) (dt : Option Int) (args : List AvmValue) : Option Int × F64 :=
  ((((DateAdjustment.new.feedHour (args.get? 0)).feedMinute (args.get? 1)).feedSecond
    (args.get? 2)).feedMillisecond (args.get? 3)).apply o dt

/-- Model of `set_date`. -/
def set_date (o : Int) (dt : Option Int) (args : List AvmValue) : Option Int × F64 :=
  (DateAdjustment.new.feedDay (args.get? 0)).apply o dt

/-- Model of `set_month`. -/
def set_month (o : Int) (dt : Option Int) (args : List AvmValue) : Option Int × F64 :=
  ((DateAdjustment.new.feedMonth (args.get? 0)).feedDay (args.get? 1)).apply o dt

/-- Model of `set_full_year`. -/
def set_full_year (o : Int) (dt : Option Int) (args : List AvmValue) : Option Int × F64 :=
  (((DateAdjustment.new.feedYear (args.get? 0)).feedMonth (args.get? 1)).feedDay
    (args.get? 2)).apply o dt

/-- Model of `set_milliseconds_utc`. -/
def set_milliseconds_utc (dt : Option Int) (args : List AvmValue) : Option Int × F64 :=
  set_milliseconds 0 dt args

/-- Model of `set_seconds_utc`. -/
def set_seconds_utc (dt : Option Int) (args : List AvmValue) : Option Int × F64 :=
  set_seconds 0 dt args

/-- Model of `set_minutes_utc`. -/
def set_minutes_utc (dt : Option Int) (args : List AvmValue) : Option Int × F64 :=
  set_minutes 0 dt args

/-- Model of `set_hours_utc`. -/
def set_hours_utc (dt : Option Int) (args : List AvmValue) : Option Int × F64 :=
  set_hours 0 dt args

/-- Model of `set_date_utc`. -/
def set_date_utc (dt : Option Int) (args : List AvmValue) : Option Int × F64 :=
  set_date 0 dt args

/-- Model of `set_month_utc`. -/
def set_month_utc (dt : Option Int) (args : List AvmValue) : Option Int × F64 :=
  set_month 0 dt args

/-- Model of `set_full_year_utc`. -/
def set_full_year_utc (dt : Option Int) (args : List AvmValue) : Option Int × F64 :=
  set_full_year 0 dt args

/-- Model of `instance_init` (the `Date` constructor): no argument (or a
leading `undefined`) stores "now"; a single argument is coerced and treated
as epoch milliseconds (`Utc.timestamp_millis_opt`, valid in the naive range,
otherwise Invalid); two or more arguments run the full `DateAdjustment`
pipeline from the synthetic base instant `year 0, Jan 1, 00:00:00` in the
local timezone, with the two-digit-year transform
`|year| if year < 100 { year + 1900 } else { year }`.  Returns the stored
instant. -/
def instance_init (o : Int) (nowMs : Int) (args : List AvmValue) : Option Int :=
  match args.get? 0 with
  | none => some nowMs
  | some AvmValue.undefined => some nowMs
  | some v =>
    if 1 < args.length then
      let base := daysFromCivil 0 1 1 * 86400000 - o * 1000
      (((((((((DateAdjustment.new.feedYear (args.get? 0)).feedMonth
        (args.get? 1)).feedDay (args.get? 2)).feedHour (args.get? 3)).feedMinute
        (args.get? 4)).feedSecond (args.get? 5)).feedMillisecond
        (args.get? 6)).adjustYear
        (fun year => if year < 100 then year + 1900 else year)).apply o (some base)).1
    else
      match coerceToNumber v with
      | F64.finite ts =>
        if naiveMinMs ≤ clampI64 ts ∧ clampI64 ts ≤ naiveMaxMs then some (clampI64 ts)
        else none
      | F64.nonFinite => none

/-- Model of the static `UTC` class method: the same feed pipeline, with
`calculate` run directly against the synthetic base instant
`Utc.ymd(0, 1, 1).and_hms(0, 0, 0)`; no `DateObject` is read or written. -/
def utc (args : List AvmValue) : F64 :=
  let base := daysFromCivil 0 1 1 * 86400000
  match ((((((DateAdjustment.new.feedYear (args.get? 0)).feedMonth
      (args.get? 1)).feedDay (args.get? 2)).feedHour (args.get? 3)).feedMinute
      (args.get? 4)).feedSecond (args.get? 5)).feedMillisecond
      (args.get? 6) |>.calculate 0 base with
  | some d => F64.finite d
  | none => F64.nonFinite

/-! ## Getters -/

/-- Model of the `milliseconds` getter (`timestamp_subsec_millis`). -/
def milliseconds (o : Int) (dt : Option Int) : F64 :=
  match dt with
  | some t => F64.finite (civilMilli (t + o * 1000))
  | none => F64.nonFinite

/-- Model of the `seconds` getter. -/
def seconds (o : Int) (dt : Option Int) : F64 :=
  match dt with
  | some t => F64.finite (civilSecond (t + o * 1000))
  | none => F64.nonFinite

/-- Model of the `minutes` getter. -/
def minutes (o : Int) (dt : Option Int) : F64 :=
  match dt with
  | some t => F64.finite (civilMinute (t + o * 1000))
  | none => F64.nonFinite

/-- Model of the `hours` getter. -/
def hours (o : Int) (dt : Option Int) : F64 :=
  match dt with
  | some t => F64.finite (civilHour (t + o * 1000))
  | none => F64.nonFinite

/-- Model of the `date` (day-of-month) getter. -/
def date (o : Int) (dt : Option Int) : F64 :=
  match dt with
  | some t => F64.finite (civilDay (t + o * 1000))
  | none => F64.nonFinite

/-- Model of the `month` getter (`month0`, 0-based). -/
def month (o : Int) (dt : Option Int) : F64 :=
  match dt with
  | some t => F64.finite (civilMonth0 (t + o * 1000))
  | none => F64.nonFinite

/-- Model of the `fullYear` getter. -/
def full_year (o : Int) (dt : Option Int) : F64 :=
  match dt with
  | some t => F64.finite (civilYear (t + o * 1000))
  | none => F64.nonFinite

/-- Model of the `day` (weekday) getter. -/
def day (o : Int) (dt : Option Int) : F64 :=
  match dt with
  | some t => F64.finite (weekdayFromSunday (t + o * 1000))
  | none => F64.nonFinite

/-- Model of the `millisecondsUTC` getter. -/
def milliseconds_utc (dt : Option Int) : F64 := milliseconds 0 dt

/-- Model of the `secondsUTC` getter. -/
def seconds_utc (dt : Option Int) : F64 := seconds 0 dt

/-- Model of the `minutesUTC` getter. -/
def minutes_utc (dt : Option Int) : F64 := minutes 0 dt

/-- Model of the `hoursUTC` getter. -/
def hours_utc (dt : Option Int) : F64 := hours 0 dt

/-- Model of the `dateUTC` getter. -/
def date_utc (dt : Option Int) : F64 := date 0 dt

/-- Model of the `monthUTC` getter. -/
def month_utc (dt : Option Int) : F64 := month 0 dt

/-- Model of the `fullYearUTC` getter. -/
def full_year_utc (dt : Option Int) : F64 := full_year 0 dt

/-- Model of the `dayUTC` getter. -/
def day_utc (dt : Option Int) : F64 := day 0 dt

/-- Model of the `timezoneOffset` getter: `utc_minus_local` (i.e. `-o`
seconds) divided by 60.  The division is exact for real-world whole-minute
offsets, where the `f64` division of the source coincides with integer
division. -/
def timezone_offset (o : Int) (dt : Option Int) : F64 :=
  match dt with
  | some _ => F64.finite (-o / 60)
  | none => F64.nonFinite

/-! ## String formatting (model of the chrono format strings used) -/

/-- Three-letter weekday name (`%a`), argument is days-from-Sunday. -/
def weekdayName (w : Int) : String :=
  if w = 0 then "Sun" else if w = 1 then "Mon" else if w = 2 then "Tue"
  else if w = 3 then "Wed" else if w = 4 then "Thu" else if w = 5 then "Fri"
  else "Sat"

/-- Three-letter month name (`%b`), argument is 1-based. -/
def monthName (m : Int) : String :=
  if m = 1 then "Jan" else if m = 2 then "Feb" else if m = 3 then "Mar"
  else if m = 4 then "Apr" else if m = 5 then "May" else if m = 6 then "Jun"
  else if m = 7 then "Jul" else if m = 8 then "Aug" else if m = 9 then "Sep"
  else if m = 10 then "Oct" else if m = 11 then "Nov" else "Dec"

/-- Zero-pad a field to two digits (`%H`/`%M`/`%S`). -/
def pad2 (n : Int) : String := (if n < 10 then "0" else "") ++ toString n

/-- `%T`: `HH:MM:SS` of a local-millisecond value. -/
def fmtTime (l : Int) : String :=
  pad2 (civilHour l) ++ ":" ++ pad2 (civilMinute l) ++ ":" ++ pad2 (civilSecond l)

/-- `%z`: `±HHMM` of an offset in seconds east. -/
def fmtOffset (o : Int) : String :=
  (if o < 0 then "-" else "+") ++ pad2 ((o.natAbs : Int) / 3600) ++
    pad2 ((o.natAbs : Int) % 3600 / 60)

/-- `%p`: `AM`/`PM`. -/
def fmtAmPm (l : Int) : String := if civilHour l < 12 then "AM" else "PM"

/-- Model of `to_string` (format `"%a %b %-d %T GMT%z %-Y"`), yielding the
literal `"Invalid Date"` on an invalid date. -/
def to_string (o : Int) (dt : Option Int) : String :=
  match dt with
  | some t =>
    let l := t + o * 1000
    weekdayName (weekdayFromSunday l) ++ " " ++ monthName (civilMonth l) ++ " " ++
      toString (civilDay l) ++ " " ++ fmtTime l ++ " GMT" ++ fmtOffset o ++ " " ++
      toString (civilYear l)
  | none => "Invalid Date"

/-- Model of `to_locale_string` (format `"%a %b %-d %-Y %T %p"`). -/
def to_locale_string (o : Int) (dt : Option Int) : String :=
  match dt with
  | some t =>
    let l := t + o * 1000
    weekdayName (weekdayFromSunday l) ++ " " ++ monthName (civilMonth l) ++ " " ++
      toString (civilDay l) ++ " " ++ toString (civilYear l) ++ " " ++ fmtTime l ++
      " " ++ fmtAmPm l
  | none => "Invalid Date"

/-- Model of `to_time_string` (format `"%T GMT%z"`). -/
def to_time_string (o : Int) (dt : Option Int) : String :=
  match dt with
  | some t => fmtTime (t + o * 1000) ++ " GMT" ++ fmtOffset o
  | none => "Invalid Date"

/-- Model of `to_locale_time_string` (format `"%T %p"`). -/
def to_locale_time_string (o : Int) (dt : Option Int) : String :=
  match dt with
  | some t => fmtTime (t + o * 1000) ++ " " ++ fmtAmPm (t + o * 1000)
  | none => "Invalid Date"

/-- Model of `to_date_string` (also bound as `toLocaleDateString`; format
`"%a %b %-d %-Y"`). -/
def to_date_string (o : Int) (dt : Option Int) : String :=
  match dt with
  | some t =>
    let l := t + o * 1000
    weekdayName (weekdayFromSunday l) ++ " " ++ monthName (civilMonth l) ++ " " ++
      toString (civilDay l) ++ " " ++ toString (civilYear l)
  | none => "Invalid Date"

/-! ## Calendar correctness lemmas -/

theorem gFn_step (x : Int) (h0 : 0 ≤ x) (h1 : x + 1 ≤ 146096) : gFn x ≤ gFn (x + 1) := by
  unfold gFn
  omega

theorem gFn_mono (x y : Int) (h0 : 0 ≤ x) (h1 : x ≤ y) (h2 : y ≤ 146096) :
    gFn x ≤ gFn y := by
  have key : ∀ k : Nat, ∀ n : Int, n = x + (k : Int) → n ≤ 146096 → gFn x ≤ gFn n := by
    intro k
    induction k with
    | zero =>
      intro n hn _
      have hx : n = x := by push_cast at hn; omega
      rw [hx]
    | succ k ih =>
      intro n hn hle
      have h4 : gFn x ≤ gFn (x + (k : Int)) := ih (x + (k : Int)) rfl (by push_cast at hn; omega)
      have h5 : gFn (x + (k : Int)) ≤ gFn (x + (k : Int) + 1) :=
        gFn_step (x + (k : Int)) (by omega) (by push_cast at hn; omega)
      have hx : n = x + (k : Int) + 1 := by push_cast at hn ⊢; omega
      rw [hx]
      omega
  exact key (y - x).toNat y (by omega) h2

def endpointOK (yoe : Int) : Bool :=
  decide (365 * yoe ≤ gFn (doeOfYoe yoe) ∧ gFn (upperDoe yoe - 1) ≤ 365 * yoe + 364)

set_option maxRecDepth 2000 in
theorem endpointOK_all : ∀ yoe : Nat, yoe < 400 → endpointOK (yoe : Int) = true := by decide

theorem endpoint_bounds (yoe : Int) (h0 : 0 ≤ yoe) (h1 : yoe ≤ 399) :
    365 * yoe ≤ gFn (doeOfYoe yoe) ∧ gFn (upperDoe yoe - 1) ≤ 365 * yoe + 364 := by
  have h := endpointOK_all yoe.toNat (by omega)
  rw [endpointOK, decide_eq_true_eq] at h
  rwa [Int.toNat_of_nonneg h0] at h

theorem doeOfYoe_mono (a b : Int) (h1 : a ≤ b) : doeOfYoe a ≤ doeOfYoe b := by
  unfold doeOfYoe
  omega

theorem upperDoe_le (yoe : Int) (h0 : 0 ≤ yoe) (h1 : yoe ≤ 399) :
    doeOfYoe yoe < upperDoe yoe ∧ upperDoe yoe ≤ doeOfYoe yoe + 366 ∧ upperDoe yoe ≤ 146097 := by
  unfold upperDoe doeOfYoe
  split_ifs <;> omega

theorem yoe_interval (doe : Int) (h0 : 0 ≤ doe) (h1 : doe ≤ 146096) :
    0 ≤ yoeFromDoe doe ∧ yoeFromDoe doe ≤ 399 ∧ doeOfYoe (yoeFromDoe doe) ≤ doe ∧
      doe < upperDoe (yoeFromDoe doe) := by
  have hg0 : gFn 0 = 0 := by decide
  have hglo : gFn 0 ≤ gFn doe := gFn_mono 0 doe (by omega) h0 h1
  have hghi : gFn doe ≤ gFn 146096 := gFn_mono doe 146096 h0 h1 (by omega)
  have hgmax' : gFn 146096 ≤ 145999 := by decide
  have hyoe : yoeFromDoe doe = gFn doe / 365 := rfl
  have hy0 : 0 ≤ yoeFromDoe doe := by rw [hyoe]; omega
  have hy1 : yoeFromDoe doe ≤ 399 := by rw [hyoe]; omega
  refine ⟨hy0, hy1, ?_, ?_⟩
  · -- lower bound: doeOfYoe yoe ≤ doe
    by_contra hlt
    push_neg at hlt
    -- doe < doeOfYoe yoe, so yoe ≥ 1 (doeOfYoe 0 = 0 ≤ doe)
    have hyoe1 : 1 ≤ yoeFromDoe doe := by
      by_contra hy
      push_neg at hy
      have : yoeFromDoe doe = 0 := by omega
      rw [this] at hlt
      have : doeOfYoe 0 = 0 := by decide
      omega
    have hupEq : upperDoe (yoeFromDoe doe - 1) = doeOfYoe (yoeFromDoe doe) := by
      unfold upperDoe
      split_ifs with h
      · omega
      · congr 1; omega
    have hle146 : doeOfYoe (yoeFromDoe doe) ≤ 145731 + 1 := by
      have := doeOfYoe_mono (yoeFromDoe doe) 399 (by omega)
      have : doeOfYoe 399 = 145731 := by decide
      omega
    have hmono : gFn doe ≤ gFn (doeOfYoe (yoeFromDoe doe) - 1) :=
      gFn_mono doe (doeOfYoe (yoeFromDoe doe) - 1) h0 (by omega) (by omega)
    have hend := (endpoint_bounds (yoeFromDoe doe - 1) (by omega) (by omega)).2
    rw [hupEq] at hend
    have h365 : 365 * yoeFromDoe doe ≤ gFn doe := by rw [hyoe] at *; omega
    omega
  · -- upper bound: doe < upperDoe yoe
    by_contra hge
    push_neg at hge
    have hy399 : yoeFromDoe doe ≤ 398 := by
      by_contra hy
      push_neg at hy
      have h399 : yoeFromDoe doe = 399 := by omega
      rw [h399] at hge
      have hv : upperDoe 399 = 146097 := by decide
      omega
    have hupEq : upperDoe (yoeFromDoe doe) = doeOfYoe (yoeFromDoe doe + 1) := by
      unfold upperDoe
      split_ifs with h
      · omega
      · rfl
    have hend := (endpoint_bounds (yoeFromDoe doe + 1) (by omega) (by omega)).1
    have hd0 : 0 ≤ doeOfYoe (yoeFromDoe doe + 1) := by
      have : doeOfYoe 0 ≤ doeOfYoe (yoeFromDoe doe + 1) := doeOfYoe_mono 0 _ (by omega)
      have : doeOfYoe 0 = 0 := by decide
      omega
    have hmono : gFn (doeOfYoe (yoeFromDoe doe + 1)) ≤ gFn doe := by
      apply gFn_mono _ _ hd0 _ h1
      rw [hupEq] at hge
      exact hge
    have h365 : gFn doe ≤ 365 * yoeFromDoe doe + 364 := by rw [hyoe] at *; omega
    omega

theorem yoe_member (yoe doy : Int) (h0 : 0 ≤ yoe) (h1 : yoe ≤ 399) (h2 : 0 ≤ doy)
    (h3 : doeOfYoe yoe + doy < upperDoe yoe) :
    yoeFromDoe (doeOfYoe yoe + doy) = yoe := by
  have hd0 : 0 ≤ doeOfYoe yoe := by
    have h := doeOfYoe_mono 0 yoe h0
    have hz : doeOfYoe 0 = 0 := by decide
    omega
  have hup := upperDoe_le yoe h0 h1
  obtain ⟨k0, k1, k2, k3⟩ := yoe_interval (doeOfYoe yoe + doy) (by omega) (by omega)
  by_contra hne
  rcases lt_or_gt_of_ne hne with hlt | hgt
  · -- yoeFromDoe .. < yoe: doe < upperDoe y* ≤ doeOfYoe (y*+1) ≤ doeOfYoe yoe ≤ doe
    have hupEq : upperDoe (yoeFromDoe (doeOfYoe yoe + doy)) ≤
        doeOfYoe (yoeFromDoe (doeOfYoe yoe + doy) + 1) := by
      unfold upperDoe
      split_ifs with h
      · omega
      · exact le_refl _
    have hmono := doeOfYoe_mono (yoeFromDoe (doeOfYoe yoe + doy) + 1) yoe (by omega)
    omega
  · -- yoe < yoeFromDoe ..: doe ≥ doeOfYoe y* ≥ doeOfYoe (yoe+1) ≥ upperDoe yoe > doe
    have hupEq : upperDoe yoe ≤ doeOfYoe (yoe + 1) := by
      unfold upperDoe
      split_ifs with h
      · omega
      · exact le_refl _
    have hmono := doeOfYoe_mono (yoe + 1) (yoeFromDoe (doeOfYoe yoe + doy)) (by omega)
    omega

theorem mpFromDoy_interval (doy : Int) (h0 : 0 ≤ doy) (h1 : doy ≤ 365) :
    0 ≤ mpFromDoy doy ∧ mpFromDoy doy ≤ 11 ∧ doyStartOfMp (mpFromDoy doy) ≤ doy ∧
      doy ≤ doyStartOfMp (mpFromDoy doy) + 30 := by
  unfold mpFromDoy doyStartOfMp
  omega

theorem mp_member (mp d : Int) (h0 : 0 ≤ mp) (h1 : mp ≤ 11) (h2 : 1 ≤ d)
    (h3 : doyStartOfMp mp + d - 1 < doyStartOfMp (mp + 1)) :
    mpFromDoy (doyStartOfMp mp + d - 1) = mp := by
  unfold mpFromDoy doyStartOfMp at *
  omega

theorem reconstruct_day (era yoe doy mp z : Int)
    (h1 : 0 ≤ yoe) (h2 : yoe ≤ 399)
    (h5 : 0 ≤ mp) (h6 : mp ≤ 11)
    (hst : doyStartOfMp mp ≤ doy)
    (hz : z + 719468 = era * 146097 + doeOfYoe yoe + doy) :
    daysFromCivil (yoe + era * 400 + (if (mp + (if mp < 10 then 3 else -9)) ≤ 2 then 1 else 0))
      (mp + (if mp < 10 then 3 else -9))
      (doy - doyStartOfMp mp + 1) = z := by
  unfold daysFromCivil doeOfYoe doyStartOfMp at *
  dsimp only at *
  split_ifs at * <;> omega

set_option maxHeartbeats 1000000 in
theorem daysFromCivil_civilFromDays (z : Int) :
    daysFromCivil (civilFromDays z).1 (civilFromDays z).2.1 (civilFromDays z).2.2 = z := by
  have hdoe0 : 0 ≤ z + 719468 - (z + 719468) / 146097 * 146097 := by omega
  have hdoe1 : z + 719468 - (z + 719468) / 146097 * 146097 ≤ 146096 := by omega
  obtain ⟨k0, k1, k2, k3⟩ := yoe_interval _ hdoe0 hdoe1
  show daysFromCivil _ _ _ = z
  unfold civilFromDays
  exact reconstruct_day ((z + 719468) / 146097) _ _ _ z k0 k1
    (mpFromDoy_interval _ (by omega)
      (by
        have := (upperDoe_le _ k0 k1).2.1
        omega)).1
    (mpFromDoy_interval _ (by omega)
      (by
        have := (upperDoe_le _ k0 k1).2.1
        omega)).2.1
    (mpFromDoy_interval _ (by omega)
      (by
        have := (upperDoe_le _ k0 k1).2.1
        omega)).2.2.1
    (by omega)

theorem forward_civil (era yoe mp d z : Int)
    (h1 : 0 ≤ yoe) (h2 : yoe ≤ 399) (h5 : 0 ≤ mp) (h6 : mp ≤ 11) (h3 : 1 ≤ d)
    (hlt : doeOfYoe yoe + (doyStartOfMp mp + d - 1) < upperDoe yoe)
    (hmp : doyStartOfMp mp + d - 1 < doyStartOfMp (mp + 1))
    (hz : z + 719468 = era * 146097 + doeOfYoe yoe + (doyStartOfMp mp + d - 1)) :
    civilFromDays z =
      (yoe + era * 400 + (if (mp + (if mp < 10 then 3 else -9)) ≤ 2 then 1 else 0),
        mp + (if mp < 10 then 3 else -9), d) := by
  have hdz : doeOfYoe 0 = 0 := by decide
  have hd0 : 0 ≤ doeOfYoe yoe := by
    have := doeOfYoe_mono 0 yoe h1
    omega
  have hst0 : 0 ≤ doyStartOfMp mp := by
    unfold doyStartOfMp
    omega
  have hup := upperDoe_le yoe h1 h2
  have hera : (z + 719468) / 146097 = era := by omega
  have hdoe : z + 719468 - (z + 719468) / 146097 * 146097 =
      doeOfYoe yoe + (doyStartOfMp mp + d - 1) := by omega
  have hyoe := yoe_member yoe (doyStartOfMp mp + d - 1) h1 h2 (by omega) hlt
  have hmpv := mp_member mp d h5 h6 h3 hmp
  unfold civilFromDays
  dsimp only
  rw [hdoe, hyoe]
  have hsub : doeOfYoe yoe + (doyStartOfMp mp + d - 1) - doeOfYoe yoe =
      doyStartOfMp mp + d - 1 := by ring
  rw [hsub, hmpv, hera]
  have hd : doyStartOfMp mp + d - 1 - doyStartOfMp mp + 1 = d := by ring
  rw [hd]

set_option maxHeartbeats 2000000 in
theorem civilFromDays_daysFromCivil (y m d : Int) (h1 : 1 ≤ m) (h2 : m ≤ 12)
    (h3 : 1 ≤ d) (h4 : d ≤ monthLength y m) :
    civilFromDays (daysFromCivil y m d) = (y, m, d) := by
  obtain ⟨era, hera⟩ : ∃ e : Int, e = (y - (if m ≤ 2 then 1 else 0)) / 400 := ⟨_, rfl⟩
  obtain ⟨yoe, hyoe⟩ : ∃ w : Int, w = y - (if m ≤ 2 then 1 else 0) - era * 400 := ⟨_, rfl⟩
  obtain ⟨mp, hmp⟩ : ∃ p : Int, p = (if 2 < m then m - 3 else m + 9 : Int) := ⟨_, rfl⟩
  have hy0 : 0 ≤ yoe ∧ yoe ≤ 399 := by
    rw [hyoe, hera]
    split_ifs <;> omega
  have hmpb : 0 ≤ mp ∧ mp ≤ 11 := by
    rw [hmp]
    split_ifs <;> omega
  have hz : daysFromCivil y m d + 719468 =
      era * 146097 + doeOfYoe yoe + (doyStartOfMp mp + d - 1) := by
    rw [hyoe, hera, hmp]
    unfold daysFromCivil doeOfYoe doyStartOfMp
    dsimp only
    split_ifs <;> omega
  have hmpm : doyStartOfMp mp + d - 1 < doyStartOfMp (mp + 1) := by
    rw [hmp]
    unfold monthLength at h4
    unfold doyStartOfMp
    interval_cases m <;> (split_ifs at h4 ⊢ <;> omega)
  have hlt : doeOfYoe yoe + (doyStartOfMp mp + d - 1) < upperDoe yoe := by
    rw [hmp, hyoe, hera]
    unfold monthLength isLeap at h4
    unfold upperDoe doeOfYoe doyStartOfMp
    interval_cases m <;> (split_ifs at h4 ⊢ <;> omega)
  have hfc := forward_civil era yoe mp d (daysFromCivil y m d) hy0.1 hy0.2 hmpb.1 hmpb.2
    h3 hlt hmpm hz
  rw [hfc]
  have hcm : mp + (if mp < 10 then 3 else -9) = m := by
    rw [hmp]
    split_ifs <;> omega
  rw [hcm]
  have hcy : yoe + era * 400 + (if m ≤ 2 then 1 else 0) = y := by
    rw [hyoe, hera]
    split_ifs <;> omega
  rw [hcy]

theorem daysFromCivil_day_linear (y m d : Int) :
    daysFromCivil y m d = daysFromCivil y m 1 + (d - 1) := by
  unfold daysFromCivil
  dsimp only
  split_ifs <;> ring

theorem civilFromDays_ranges (z : Int) :
    1 ≤ (civilFromDays z).2.1 ∧ (civilFromDays z).2.1 ≤ 12 ∧
      1 ≤ (civilFromDays z).2.2 ∧ (civilFromDays z).2.2 ≤ 31 := by
  have hdoe0 : 0 ≤ z + 719468 - (z + 719468) / 146097 * 146097 := by omega
  have hdoe1 : z + 719468 - (z + 719468) / 146097 * 146097 ≤ 146096 := by omega
  obtain ⟨k0, k1, k2, k3⟩ := yoe_interval _ hdoe0 hdoe1
  have hub := (upperDoe_le _ k0 k1).2.1
  obtain ⟨m0, m1, m2, m3⟩ := mpFromDoy_interval
    (z + 719468 - (z + 719468) / 146097 * 146097 -
      doeOfYoe (yoeFromDoe (z + 719468 - (z + 719468) / 146097 * 146097)))
    (by omega) (by omega)
  unfold civilFromDays
  dsimp only
  refine ⟨?_, ?_, ?_, ?_⟩ <;> first
    | (split_ifs <;> omega)
    | omega

theorem time_decomposition (l : Int) :
    civilHour l * 3600000 + civilMinute l * 60000 + civilSecond l * 1000 + civilMilli l =
      msOfDay l ∧ 0 ≤ civilHour l ∧ civilHour l ≤ 23 ∧ 0 ≤ civilMinute l ∧
      civilMinute l ≤ 59 ∧ 0 ≤ civilSecond l ∧ civilSecond l ≤ 59 ∧ 0 ≤ civilMilli l ∧
      civilMilli l ≤ 999 ∧ epochDays l * 86400000 + msOfDay l = l := by
  unfold civilHour civilMinute civilSecond civilMilli msOfDay epochDays
  omega

theorem view_reconstruct (l : Int) :
    daysFromCivil (civilYear l) (civilMonth0 l + 1) 1 * 86400000 +
      (civilDay l - 1) * 86400000 + civilHour l * 3600000 + civilMinute l * 60000 +
      civilSecond l * 1000 + civilMilli l = l := by
  have hA := daysFromCivil_civilFromDays (epochDays l)
  have hlin := daysFromCivil_day_linear (civilFromDays (epochDays l)).1
    (civilFromDays (epochDays l)).2.1 (civilFromDays (epochDays l)).2.2
  have htd := time_decomposition l
  have hm : civilMonth0 l + 1 = (civilFromDays (epochDays l)).2.1 := by
    unfold civilMonth0 civilMonth
    ring
  rw [hm]
  unfold civilYear civilDay
  omega

theorem daysFromCivil_le_max (y ym m d : Int) (hm1 : 1 ≤ m) (hm2 : m ≤ 12)
    (hd1 : 1 ≤ d) (hd2 : d ≤ 31) (hy : y ≤ ym) :
    daysFromCivil y m d ≤ daysFromCivil ym 12 31 := by
  unfold daysFromCivil doeOfYoe doyStartOfMp
  dsimp only
  split_ifs <;> omega

theorem daysFromCivil_ge_min (y ym m d : Int) (hm1 : 1 ≤ m) (hm2 : m ≤ 12)
    (hd1 : 1 ≤ d) (hd2 : d ≤ 31) (hy : ym ≤ y) :
    daysFromCivil ym 1 1 ≤ daysFromCivil y m d := by
  unfold daysFromCivil doeOfYoe doyStartOfMp
  dsimp only
  split_ifs <;> omega

theorem civilYear_range (l : Int) (h1 : naiveMinMs ≤ l) (h2 : l ≤ naiveMaxMs) :
    chronoMinYear ≤ civilYear l ∧ civilYear l ≤ chronoMaxYear := by
  have hmin : naiveMinMs = -8334632851200000 := by decide
  have hmax : naiveMaxMs = 8210298412799999 := by decide
  have hz1 : -96465658 ≤ epochDays l := by unfold epochDays; omega
  have hz2 : epochDays l ≤ 95026601 := by unfold epochDays; omega
  have hA := daysFromCivil_civilFromDays (epochDays l)
  have hr := civilFromDays_ranges (epochDays l)
  constructor
  · show (-262144 : Int) ≤ civilYear l
    by_contra hlt
    push_neg at hlt
    have hle := daysFromCivil_le_max (civilFromDays (epochDays l)).1 (-262145)
      (civilFromDays (epochDays l)).2.1 (civilFromDays (epochDays l)).2.2
      hr.1 hr.2.1 hr.2.2.1 hr.2.2.2 (by unfold civilYear at hlt; omega)
    have hv : daysFromCivil (-262145) 12 31 = -96465659 := by decide
    omega
  · show civilYear l ≤ (262143 : Int)
    by_contra hlt
    push_neg at hlt
    have hge := daysFromCivil_ge_min (civilFromDays (epochDays l)).1 262144
      (civilFromDays (epochDays l)).2.1 (civilFromDays (epochDays l)).2.2
      hr.1 hr.2.1 hr.2.2.1 hr.2.2.2 (by unfold civilYear at hlt; omega)
    have hv : daysFromCivil 262144 1 1 = 95026602 := by decide
    omega

theorem clampI64_id (v : Int) (h1 : -9223372036854775808 ≤ v)
    (h2 : v ≤ 9223372036854775807) : clampI64 v = v := by
  unfold clampI64
  split_ifs <;> omega

theorem wrapI64_id (v : Int) (h1 : -9223372036854775808 ≤ v)
    (h2 : v ≤ 9223372036854775807) : wrapI64 v = v := by
  unfold wrapI64
  omega

theorem wrapI32_id (v : Int) (h1 : -2147483648 ≤ v) (h2 : v ≤ 2147483647) :
    wrapI32 v = v := by
  unfold wrapI32
  omega

set_option maxHeartbeats 4000000 in
theorem prev_month_last_day (y m : Int) (h1 : 1 ≤ m) (h2 : m ≤ 12) :
    daysFromCivil y m 1 - 1 =
      daysFromCivil (if m = 1 then y - 1 else y) (if m = 1 then 12 else m - 1)
        (monthLength (if m = 1 then y - 1 else y) (if m = 1 then 12 else m - 1)) := by
  interval_cases m <;>
    (unfold daysFromCivil monthLength isLeap doeOfYoe doyStartOfMp
     dsimp only
     split_ifs <;> omega)

theorem monthLength_bounds (y m : Int) : 28 ≤ monthLength y m ∧ monthLength y m ≤ 31 := by
  unfold monthLength
  split_ifs <;> omega

theorem civil_view_of (dn tod y m d : Int) (h1 : 0 ≤ tod) (h2 : tod < 86400000)
    (hm1 : 1 ≤ m) (hm2 : m ≤ 12) (hd1 : 1 ≤ d) (hd2 : d ≤ monthLength y m)
    (hD : dn = daysFromCivil y m d) :
    civilYear (dn * 86400000 + tod) = y ∧ civilMonth0 (dn * 86400000 + tod) = m - 1 ∧
      civilDay (dn * 86400000 + tod) = d ∧ msOfDay (dn * 86400000 + tod) = tod := by
  have hB := civilFromDays_daysFromCivil y m d hm1 hm2 hd1 hd2
  have hz : epochDays (dn * 86400000 + tod) = dn := by
    unfold epochDays
    omega
  unfold civilYear civilMonth0 civilMonth civilDay msOfDay
  rw [hz, hD, hB]
  refine ⟨rfl, by ring, rfl, by omega⟩

theorem civilYear_lt (l yb : Int) (hlt : l < daysFromCivil yb 1 1 * 86400000) :
    civilYear l < yb := by
  by_contra hge
  push_neg at hge
  have hr := civilFromDays_ranges (epochDays l)
  have hA := daysFromCivil_civilFromDays (epochDays l)
  have hmin := daysFromCivil_ge_min (civilFromDays (epochDays l)).1 yb
    (civilFromDays (epochDays l)).2.1 (civilFromDays (epochDays l)).2.2
    hr.1 hr.2.1 hr.2.2.1 hr.2.2.2 (by unfold civilYear at hge; omega)
  have hl : epochDays l * 86400000 ≤ l := by
    unfold epochDays
    omega
  omega

theorem civilYear_ge (l yb : Int) (hge : daysFromCivil yb 1 1 * 86400000 ≤ l) :
    yb ≤ civilYear l := by
  by_contra hlt
  push_neg at hlt
  have hr := civilFromDays_ranges (epochDays l)
  have hA := daysFromCivil_civilFromDays (epochDays l)
  have hmax := daysFromCivil_le_max (civilFromDays (epochDays l)).1 (yb - 1)
    (civilFromDays (epochDays l)).2.1 (civilFromDays (epochDays l)).2.2
    hr.1 hr.2.1 hr.2.2.1 hr.2.2.2 (by unfold civilYear at hlt; omega)
  have hadj := prev_month_last_day yb 1 (by omega) (by omega)
  have hml : monthLength (yb - 1) 12 = 31 := by
    unfold monthLength
    split_ifs <;> omega
  rw [if_pos rfl, if_pos rfl, hml] at hadj
  have hl : l < (epochDays l + 1) * 86400000 := by
    unfold epochDays
    omega
  omega

/-- C2: for every valid stored instant whose civil view in the fixed-offset
timezone `o` exists (i.e. the local naive datetime is in chrono's range),
feeding all seven civil-view fields (all explicitly supplied) into a fresh
adjuster bound to `o` and applying it reproduces the instant exactly and
leaves the stored instant unchanged. -/
theorem claim_c2 (t o : Int) (h1 : naiveMinMs ≤ t) (h2 : t ≤ naiveMaxMs)
    (h3 : naiveMinMs ≤ t + o * 1000) (h4 : t + o * 1000 ≤ naiveMaxMs) :
    (((((((DateAdjustment.new.feedYear
        (some (.number (.finite (civilYear (t + o * 1000)))))).feedMonth
        (some (.number (.finite (civilMonth0 (t + o * 1000)))))).feedDay
        (some (.number (.finite (civilDay (t + o * 1000)))))).feedHour
        (some (.number (.finite (civilHour (t + o * 1000)))))).feedMinute
        (some (.number (.finite (civilMinute (t + o * 1000)))))).feedSecond
        (some (.number (.finite (civilSecond (t + o * 1000)))))).feedMillisecond
        (some (.number (.finite (civilMilli (t + o * 1000)))))).apply o (some t) =
      (some t, F64.finite t) := by
  have hrg := civilFromDays_ranges (epochDays (t + o * 1000))
  have hm0 : 0 ≤ civilMonth0 (t + o * 1000) ∧ civilMonth0 (t + o * 1000) ≤ 11 := by
    unfold civilMonth0 civilMonth
    omega
  have hdy : 1 ≤ civilDay (t + o * 1000) ∧ civilDay (t + o * 1000) ≤ 31 := by
    unfold civilDay
    omega
  have hyr := civilYear_range (t + o * 1000) h3 h4
  have hcmin : chronoMinYear = -262144 := rfl
  have hcmax : chronoMaxYear = 262143 := rfl
  have htd := time_decomposition (t + o * 1000)
  simp only [DateAdjustment.new, DateAdjustment.feedYear, DateAdjustment.feedMonth,
    DateAdjustment.feedDay, DateAdjustment.feedHour, DateAdjustment.feedMinute,
    DateAdjustment.feedSecond, DateAdjustment.feedMillisecond, DateAdjustment.apply,
    DateAdjustment.calculate, checkValue, checkMappedValue, coerceToNumber, f64AsI64,
    YearType.adjust, Bool.false_eq_true, if_false, Option.bind_eq_bind, Option.some_bind,
    Option.map_eq_map, Option.map_some', Option.getD_some, id_eq]
  rw [clampI64_id (civilMonth0 (t + o * 1000)) (by omega) (by omega),
    clampI64_id (civilYear (t + o * 1000)) (by omega) (by omega),
    clampI64_id (civilDay (t + o * 1000)) (by omega) (by omega),
    clampI64_id (civilHour (t + o * 1000)) (by omega) (by omega),
    clampI64_id (civilMinute (t + o * 1000)) (by omega) (by omega),
    clampI64_id (civilSecond (t + o * 1000)) (by omega) (by omega),
    clampI64_id (civilMilli (t + o * 1000)) (by omega) (by omega)]
  have hmod : civilMonth0 (t + o * 1000) % 12 = civilMonth0 (t + o * 1000) := by omega
  have hdiv : civilMonth0 (t + o * 1000) / 12 = 0 := by omega
  rw [hmod, hdiv, add_zero,
    wrapI64_id (civilYear (t + o * 1000)) (by omega) (by omega),
    wrapI32_id (civilYear (t + o * 1000)) (by omega) (by omega)]
  have hres : daysFromCivil (civilYear (t + o * 1000)) (civilMonth0 (t + o * 1000) + 1) 1 *
        86400000 - o * 1000 +
      ((civilDay (t + o * 1000) - 1) * 86400000 + civilHour (t + o * 1000) * 3600000 +
        civilMinute (t + o * 1000) * 60000 + civilSecond (t + o * 1000) * 1000 +
        civilMilli (t + o * 1000)) = t := by
    have := view_reconstruct (t + o * 1000)
    omega
  rw [hres]
  split_ifs with hc1 hc2 <;> first
    | rfl
    | omega

/-- Witness for C2 at the concrete instant 1970-01-15T00:00:00Z viewed at
offset +3600 s. -/
theorem claim_c2_witness :
    (((((((DateAdjustment.new.feedYear
        (some (.number (.finite (civilYear (1209600000 + 3600 * 1000)))))).feedMonth
        (some (.number (.finite (civilMonth0 (1209600000 + 3600 * 1000)))))).feedDay
        (some (.number (.finite (civilDay (1209600000 + 3600 * 1000)))))).feedHour
        (some (.number (.finite (civilHour (1209600000 + 3600 * 1000)))))).feedMinute
        (some (.number (.finite (civilMinute (1209600000 + 3600 * 1000)))))).feedSecond
        (some (.number (.finite (civilSecond (1209600000 + 3600 * 1000)))))).feedMillisecond
        (some (.number (.finite (civilMilli (1209600000 + 3600 * 1000)))))).apply 3600
        (some 1209600000) =
      (some 1209600000, F64.finite 1209600000) :=
  claim_c2 1209600000 3600 (by decide) (by decide) (by decide) (by decide)

/-- C1: once a feed in the canonical order receives the not-supplied sentinel
the `ignore_next` latch is set, and a latched adjuster ignores every further
feed (the slot stays unspecified even when a value is supplied); in
particular, feeding year=supplied, month=not-supplied, day=supplied-with-a-
value leaves the month and day slots unspecified (keep current value) and
applying the adjuster behaves exactly like applying the year-only
adjustment. -/
theorem claim_c1 :
    (∀ (a : DateAdjustment) (v : Option AvmValue), a.ignoreNext = true →
      a.feedYear v = a ∧ a.feedMonth v = a ∧ a.feedDay v = a ∧ a.feedHour v = a ∧
        a.feedMinute v = a ∧ a.feedSecond v = a ∧ a.feedMillisecond v = a) ∧
    (∀ a : DateAdjustment, (a.feedYear none).ignoreNext = true ∧
      (a.feedMonth none).ignoreNext = true ∧ (a.feedDay none).ignoreNext = true ∧
      (a.feedHour none).ignoreNext = true ∧ (a.feedMinute none).ignoreNext = true ∧
      (a.feedSecond none).ignoreNext = true ∧ (a.feedMillisecond none).ignoreNext = true) ∧
    (∀ (yv dv : AvmValue) (o t : Int),
      (((DateAdjustment.new.feedYear (some yv)).feedMonth none).feedDay (some dv)).month =
          none ∧
        (((DateAdjustment.new.feedYear (some yv)).feedMonth none).feedDay (some dv)).day =
          none ∧
        (((DateAdjustment.new.feedYear (some yv)).feedMonth none).feedDay
            (some dv)).apply o (some t) =
          (DateAdjustment.new.feedYear (some yv)).apply o (some t)) := by
  refine ⟨?_, ?_, ?_⟩
  · intro a v h
    refine ⟨?_, ?_, ?_, ?_, ?_, ?_, ?_⟩ <;>
      simp only [DateAdjustment.feedYear, DateAdjustment.feedMonth, DateAdjustment.feedDay,
        DateAdjustment.feedHour, DateAdjustment.feedMinute, DateAdjustment.feedSecond,
        DateAdjustment.feedMillisecond, h, if_true]
  · intro a
    refine ⟨?_, ?_, ?_, ?_, ?_, ?_, ?_⟩ <;>
      (cases h : a.ignoreNext <;>
        simp [DateAdjustment.feedYear, DateAdjustment.feedMonth, DateAdjustment.feedDay,
          DateAdjustment.feedHour, DateAdjustment.feedMinute, DateAdjustment.feedSecond,
          DateAdjustment.feedMillisecond, h])
  · intro yv dv o t
    refine ⟨rfl, rfl, rfl⟩

/-- Witness for C1: a latched adjuster ignores a supplied day feed, and the
year=2000 / month-omitted / day=5 call applies like the year-only call. -/
theorem claim_c1_witness :
    ({ DateAdjustment.new with ignoreNext := true } : DateAdjustment).feedDay
        (some (AvmValue.number (F64.finite 5))) =
        { DateAdjustment.new with ignoreNext := true } ∧
      (((DateAdjustment.new.feedYear (some (AvmValue.number (F64.finite 2000)))).feedMonth
            none).feedDay (some (AvmValue.number (F64.finite 5)))).apply 0 (some 0) =
        (DateAdjustment.new.feedYear (some (AvmValue.number (F64.finite 2000)))).apply 0
          (some 0) :=
  ⟨(claim_c1.1 { DateAdjustment.new with ignoreNext := true }
      (some (AvmValue.number (F64.finite 5))) rfl).2.2.1,
    (claim_c1.2.2 (AvmValue.number (F64.finite 2000)) (AvmValue.number (F64.finite 5))
      0 0).2.2⟩

/-- C6: every component setter invoked on an Invalid (`none`) stored instant
skips the compute step, leaves the `DateValue` Invalid, and returns NaN,
regardless of the supplied arguments. -/
theorem claim_c6 (o : Int) (args : List AvmValue) :
    set_milliseconds o none args = (none, F64.nonFinite) ∧
      set_seconds o none args = (none, F64.nonFinite) ∧
      set_minutes o none args = (none, F64.nonFinite) ∧
      set_hours o none args = (none, F64.nonFinite) ∧
      set_date o none args = (none, F64.nonFinite) ∧
      set_month o none args = (none, F64.nonFinite) ∧
      set_full_year o none args = (none, F64.nonFinite) ∧
      set_milliseconds_utc none args = (none, F64.nonFinite) ∧
      set_seconds_utc none args = (none, F64.nonFinite) ∧
      set_minutes_utc none args = (none, F64.nonFinite) ∧
      set_hours_utc none args = (none, F64.nonFinite) ∧
      set_date_utc none args = (none, F64.nonFinite) ∧
      set_month_utc none args = (none, F64.nonFinite) ∧
      set_full_year_utc none args = (none, F64.nonFinite) :=
  ⟨rfl, rfl, rfl, rfl, rfl, rfl, rfl, rfl, rfl, rfl, rfl, rfl, rfl, rfl⟩

/-- C9: on an Invalid (`none`) stored instant every numeric field getter
(local and UTC variants, the weekday getters, and `timezoneOffset`) returns
NaN, and every string-formatting method returns exactly `"Invalid Date"`. -/
theorem claim_c9 (o : Int) :
    milliseconds o none = F64.nonFinite ∧ seconds o none = F64.nonFinite ∧
      minutes o none = F64.nonFinite ∧ hours o none = F64.nonFinite ∧
      date o none = F64.nonFinite ∧ month o none = F64.nonFinite ∧
      full_year o none = F64.nonFinite ∧ day o none = F64.nonFinite ∧
      milliseconds_utc none = F64.nonFinite ∧ seconds_utc none = F64.nonFinite ∧
      minutes_utc none = F64.nonFinite ∧ hours_utc none = F64.nonFinite ∧
      date_utc none = F64.nonFinite ∧ month_utc none = F64.nonFinite ∧
      full_year_utc none = F64.nonFinite ∧ day_utc none = F64.nonFinite ∧
      timezone_offset o none = F64.nonFinite ∧
      to_string o none = "Invalid Date" ∧ to_locale_string o none = "Invalid Date" ∧
      to_time_string o none = "Invalid Date" ∧
      to_locale_time_string o none = "Invalid Date" ∧
      to_date_string o none = "Invalid Date" :=
  ⟨rfl, rfl, rfl, rfl, rfl, rfl, rfl, rfl, rfl, rfl, rfl, rfl, rfl, rfl, rfl, rfl, rfl,
    rfl, rfl, rfl, rfl, rfl⟩

/-- C8: the static `UTC` factory at (2024, 0, 15, 12, 30, 0, 0) returns the
finite value 1705321800000; constructing a `Date` from that single value
stores it exactly, and the UTC view of the stored instant has year 2024,
month0 0, day 15, hour 12, minute 30, second 0, millisecond 0.  (The factory
itself reads and writes no `DateObject`: `utc` is a pure function of its
arguments.) -/
theorem claim_c8 :
    utc [AvmValue.number (F64.finite 2024), AvmValue.number (F64.finite 0),
        AvmValue.number (F64.finite 15), AvmValue.number (F64.finite 12),
        AvmValue.number (F64.finite 30), AvmValue.number (F64.finite 0),
        AvmValue.number (F64.finite 0)] = F64.finite 1705321800000 ∧
      instance_init 0 0 [AvmValue.number (F64.finite 1705321800000)] =
        some 1705321800000 ∧
      full_year_utc (some 1705321800000) = F64.finite 2024 ∧
      month_utc (some 1705321800000) = F64.finite 0 ∧
      date_utc (some 1705321800000) = F64.finite 15 ∧
      hours_utc (some 1705321800000) = F64.finite 12 ∧
      minutes_utc (some 1705321800000) = F64.finite 30 ∧
      seconds_utc (some 1705321800000) = F64.finite 0 ∧
      milliseconds_utc (some 1705321800000) = F64.finite 0 := by
  refine ⟨by decide, by decide, by decide, by decide, by decide, by decide, by decide,
    by decide, by decide⟩

/-- C10: the one-argument constructor coerces its (non-`undefined`) argument;
a finite result is truncated with `as i64` and stored exactly when the
corresponding instant is representable (`timestamp_millis_opt` gives
`Single`), and the `DateValue` is set to Invalid — no error is raised — when
it is not; a non-finite coercion likewise yields Invalid. -/
theorem claim_c10 (o nowMs : Int) (v : AvmValue) :
    (∀ m : Int, coerceToNumber v = F64.finite m →
      instance_init o nowMs [v] =
        if naiveMinMs ≤ clampI64 m ∧ clampI64 m ≤ naiveMaxMs then some (clampI64 m)
        else none) ∧
    (v ≠ AvmValue.undefined → coerceToNumber v = F64.nonFinite →
      instance_init o nowMs [v] = none) := by
  constructor
  · intro m hm
    cases v with
    | undefined => simp [coerceToNumber] at hm
    | number n =>
      simp only [coerceToNumber] at hm
      simp only [instance_init, List.get?, List.length, hm, coerceToNumber]
      norm_num
    | nonNumeric => simp [coerceToNumber] at hm
  · intro hne hm
    cases v with
    | undefined => exact absurd rfl hne
    | number n =>
      simp only [coerceToNumber] at hm
      simp only [instance_init, List.get?, List.length, hm, coerceToNumber]
      norm_num
    | nonNumeric =>
      simp only [instance_init, List.get?, List.length, coerceToNumber]
      norm_num

/-- Witness for C10: constructing from the finite value 12345 stores exactly
12345. -/
theorem claim_c10_witness :
    instance_init 0 0 [AvmValue.number (F64.finite 12345)] = some 12345 := by
  have h := (claim_c10 0 0 (AvmValue.number (F64.finite 12345))).1 12345 rfl
  rw [h]
  decide

/-- C5: a slot holding a specified non-finite value makes the compute step
fail and `apply` sets the `DateValue` to Invalid and returns NaN; a value
whose coercion is NaN is recorded as specified-non-finite (never as
unspecified) by a feed; and the `setSeconds` entry point on any valid instant
with a non-coercible argument yields Invalid and returns NaN. -/
theorem claim_c5 :
    (∀ (a : DateAdjustment) (o t : Int),
      (a.year = some (some F64.nonFinite) ∨ a.month = some (some F64.nonFinite) ∨
          a.day = some (some F64.nonFinite) ∨ a.hour = some (some F64.nonFinite) ∨
          a.minute = some (some F64.nonFinite) ∨ a.second = some (some F64.nonFinite) ∨
          a.millisecond = some (some F64.nonFinite)) →
        a.calculate o t = none ∧ a.apply o (some t) = (none, F64.nonFinite)) ∧
    (∀ (b : DateAdjustment) (v : AvmValue), b.ignoreNext = false →
      coerceToNumber v = F64.nonFinite →
      (b.feedSecond (some v)).second = some (some F64.nonFinite)) ∧
    (∀ (o t : Int) (v : AvmValue), coerceToNumber v = F64.nonFinite →
      set_seconds o (some t) [v] = (none, F64.nonFinite)) := by
  have p1 : ∀ (a : DateAdjustment) (o t : Int),
      (a.year = some (some F64.nonFinite) ∨ a.month = some (some F64.nonFinite) ∨
          a.day = some (some F64.nonFinite) ∨ a.hour = some (some F64.nonFinite) ∨
          a.minute = some (some F64.nonFinite) ∨ a.second = some (some F64.nonFinite) ∨
          a.millisecond = some (some F64.nonFinite)) →
        a.calculate o t = none := by
    intro a o t h
    cases hcal : a.calculate o t with
    | none => rfl
    | some r =>
      exfalso
      simp only [DateAdjustment.calculate, Option.bind_eq_bind, Option.bind_eq_some] at hcal
      obtain ⟨mo, hmo, yr, hyr, dy, hdy, hr2, hhr, mi2, hmi, se, hse, ms2, hms, hlast⟩ :=
        hcal
      rcases h with h | h | h | h | h | h | h
      · rw [h] at hyr
        simp [checkMappedValue] at hyr
      · rw [h] at hmo
        simp [checkMappedValue] at hmo
      · rw [h] at hdy
        simp [checkValue] at hdy
      · rw [h] at hhr
        simp [checkValue] at hhr
      · rw [h] at hmi
        simp [checkValue] at hmi
      · rw [h] at hse
        simp [checkValue] at hse
      · rw [h] at hms
        simp [checkValue] at hms
  refine ⟨?_, ?_, ?_⟩
  · intro a o t h
    have hc := p1 a o t h
    exact ⟨hc, by simp [DateAdjustment.apply, hc]⟩
  · intro b v h1 h2
    simp [DateAdjustment.feedSecond, h1, h2]
  · intro o t v hv
    have hc := p1 ((DateAdjustment.new.feedSecond (some v)).feedMillisecond none) o t
      (by
        simp [DateAdjustment.new, DateAdjustment.feedSecond, DateAdjustment.feedMillisecond,
          List.get?, hv])
    simp only [set_seconds, List.get?, DateAdjustment.apply, hc]

/-- Witness for C5 with a non-finite second slot, a NaN-coercing feed, and
`setSeconds` of a non-numeric value on the epoch instant. -/
theorem claim_c5_witness :
    ({ DateAdjustment.new with second := some (some F64.nonFinite) } :
        DateAdjustment).apply 0 (some 0) = (none, F64.nonFinite) ∧
      (DateAdjustment.new.feedSecond (some AvmValue.nonNumeric)).second =
        some (some F64.nonFinite) ∧
      set_seconds 0 (some 0) [AvmValue.nonNumeric] = (none, F64.nonFinite) :=
  ⟨(claim_c5.1 { DateAdjustment.new with second := some (some F64.nonFinite) } 0 0
      (Or.inr (Or.inr (Or.inr (Or.inr (Or.inr (Or.inl rfl))))))).2,
    claim_c5.2.1 DateAdjustment.new AvmValue.nonNumeric rfl rfl,
    claim_c5.2.2 0 0 AvmValue.nonNumeric rfl⟩

/-- Counterexample to C4 as stated: the multi-argument constructor does not
use a negative year unchanged; year = -1 is mapped to 1899 (the `year < 100`
branch of the transform also captures negative years). -/
theorem claim_c4_counterexample :
    full_year_utc (instance_init 0 0 [AvmValue.number (F64.finite (-1)),
        AvmValue.number (F64.finite 0)]) = F64.finite 1899 ∧ (1899 : Int) ≠ -1 := by
  refine ⟨by decide, by decide⟩

/-- C4 (amended): the multi-argument constructor maps every supplied year
value below 100 — including negative values — to year + 1900 and uses a year
value of at least 100 unchanged; the `UTC` factory and the explicit-year
setter (`setFullYear`) apply no such transform. -/
theorem claim_c4_amended :
    (∀ y : Int, -264044 ≤ y → y ≤ 262143 →
      instance_init 0 0 [AvmValue.number (F64.finite y), AvmValue.number (F64.finite 0)] =
        some (daysFromCivil (if y < 100 then y + 1900 else y) 1 1 * 86400000)) ∧
    (∀ y : Int, -262144 ≤ y → y ≤ 262143 →
      utc [AvmValue.number (F64.finite y)] =
        F64.finite (daysFromCivil y 1 1 * 86400000)) ∧
    (∀ y : Int, -262144 ≤ y → y ≤ 262143 →
      set_full_year_utc (some 0) [AvmValue.number (F64.finite y)] =
        (some (daysFromCivil y 1 1 * 86400000),
          F64.finite (daysFromCivil y 1 1 * 86400000))) := by
  have hminD : daysFromCivil (-262144) 1 1 = -96465658 := by decide
  have hmaxD : daysFromCivil 262143 12 31 = 95026601 := by decide
  have hmin : naiveMinMs = -8334632851200000 := by decide
  have hmax : naiveMaxMs = 8210298412799999 := by decide
  have hcmin : chronoMinYear = -262144 := rfl
  have hcmax : chronoMaxYear = 262143 := rfl
  have hl : daysFromCivil 0 1 1 * 86400000 = -62167219200000 := by decide
  have hd1 : civilDay (-62167219200000) = 1 := by decide
  have hh0 : civilHour (-62167219200000) = 0 := by decide
  have hmi0 : civilMinute (-62167219200000) = 0 := by decide
  have hs0 : civilSecond (-62167219200000) = 0 := by decide
  have hms0 : civilMilli (-62167219200000) = 0 := by decide
  have hmo0 : civilMonth0 (-62167219200000) = 0 := by decide
  have hc0 : clampI64 (0 : Int) = 0 := by decide
  have h012 : (0 : Int) / 12 = 0 := by decide
  have h0m12 : (0 : Int) % 12 + 1 = 1 := by decide
  refine ⟨?_, ?_, ?_⟩
  · intro y hy1 hy2
    have hcy : clampI64 y = y := clampI64_id y (by omega) (by omega)
    simp [instance_init, List.get?, DateAdjustment.new, DateAdjustment.feedYear,
      DateAdjustment.feedMonth, DateAdjustment.feedDay, DateAdjustment.feedHour,
      DateAdjustment.feedMinute, DateAdjustment.feedSecond, DateAdjustment.feedMillisecond,
      DateAdjustment.adjustYear, DateAdjustment.apply, DateAdjustment.calculate,
      checkValue, checkMappedValue, coerceToNumber, f64AsI64, YearType.adjust]
    rw [hcy, hc0, hl, hd1, hh0, hmi0, hs0, hms0, h012, h0m12, add_zero]
    by_cases hlt : y < 100
    · rw [if_pos hlt,
        wrapI64_id (y + 1900) (by omega) (by omega),
        wrapI32_id (y + 1900) (by omega) (by omega)]
      have hgmin := daysFromCivil_ge_min (y + 1900) (-262144) 1 1 (by omega) (by omega)
        (by omega) (by omega) (by omega)
      have hgmax := daysFromCivil_le_max (y + 1900) 262143 1 1 (by omega) (by omega)
        (by omega) (by omega) (by omega)
      refine ⟨⟨by omega, by omega⟩, ⟨by omega, by omega⟩, by ring⟩
    · rw [if_neg hlt,
        wrapI64_id y (by omega) (by omega), wrapI32_id y (by omega) (by omega)]
      have hgmin := daysFromCivil_ge_min y (-262144) 1 1 (by omega) (by omega)
        (by omega) (by omega) (by omega)
      have hgmax := daysFromCivil_le_max y 262143 1 1 (by omega) (by omega)
        (by omega) (by omega) (by omega)
      refine ⟨⟨by omega, by omega⟩, ⟨by omega, by omega⟩, by ring⟩
  · intro y hy1 hy2
    have hcy : clampI64 y = y := clampI64_id y (by omega) (by omega)
    have h0p1 : (0 : Int) + 1 = 1 := by decide
    have hcal : (((((((DateAdjustment.new.feedYear
        (some (AvmValue.number (F64.finite y)))).feedMonth none).feedDay
        none).feedHour none).feedMinute none).feedSecond none).feedMillisecond
        none).calculate 0 (daysFromCivil 0 1 1 * 86400000) =
        some (daysFromCivil y 1 1 * 86400000) := by
      simp [DateAdjustment.new, DateAdjustment.feedYear, DateAdjustment.feedMonth,
        DateAdjustment.feedDay, DateAdjustment.feedHour, DateAdjustment.feedMinute,
        DateAdjustment.feedSecond, DateAdjustment.feedMillisecond,
        DateAdjustment.calculate, checkValue, checkMappedValue, coerceToNumber, f64AsI64,
        YearType.adjust]
      rw [hcy, hl, hd1, hh0, hmi0, hs0, hms0, hmo0, h0p1, add_zero,
        wrapI64_id y (by omega) (by omega), wrapI32_id y (by omega) (by omega)]
      have hgmin := daysFromCivil_ge_min y (-262144) 1 1 (by omega) (by omega)
        (by omega) (by omega) (by omega)
      have hgmax := daysFromCivil_le_max y 262143 1 1 (by omega) (by omega)
        (by omega) (by omega) (by omega)
      refine ⟨⟨by omega, by omega⟩, ⟨by omega, by omega⟩, by ring⟩
    simp only [utc, List.get?, hcal]
  · intro y hy1 hy2
    have hcy : clampI64 y = y := clampI64_id y (by omega) (by omega)
    have h0p1 : (0 : Int) + 1 = 1 := by decide
    have hd1' : civilDay 0 = 1 := by decide
    have hh0' : civilHour 0 = 0 := by decide
    have hmi0' : civilMinute 0 = 0 := by decide
    have hs0' : civilSecond 0 = 0 := by decide
    have hms0' : civilMilli 0 = 0 := by decide
    have hmo0' : civilMonth0 0 = 0 := by decide
    have hcal : (((DateAdjustment.new.feedYear
        (some (AvmValue.number (F64.finite y)))).feedMonth none).feedDay
        none).calculate 0 0 = some (daysFromCivil y 1 1 * 86400000) := by
      simp [DateAdjustment.new, DateAdjustment.feedYear, DateAdjustment.feedMonth,
        DateAdjustment.feedDay, DateAdjustment.calculate, checkValue, checkMappedValue,
        coerceToNumber, f64AsI64, YearType.adjust]
      rw [hcy, hd1', hh0', hmi0', hs0', hms0', hmo0', h0p1, add_zero,
        wrapI64_id y (by omega) (by omega), wrapI32_id y (by omega) (by omega)]
      have hgmin := daysFromCivil_ge_min y (-262144) 1 1 (by omega) (by omega)
        (by omega) (by omega) (by omega)
      have hgmax := daysFromCivil_le_max y 262143 1 1 (by omega) (by omega)
        (by omega) (by omega) (by omega)
      refine ⟨⟨by omega, by omega⟩, ⟨by omega, by omega⟩, by ring⟩
    simp only [set_full_year_utc, set_full_year, List.get?, DateAdjustment.apply, hcal]

/-- Witness for the amended C4 at year = 5 (two-digit convention), year = 105
(used unchanged), and the `UTC` factory at year = 5. -/
theorem claim_c4_amended_witness :
    instance_init 0 0 [AvmValue.number (F64.finite 5), AvmValue.number (F64.finite 0)] =
        some (daysFromCivil 1905 1 1 * 86400000) ∧
      instance_init 0 0 [AvmValue.number (F64.finite 105),
          AvmValue.number (F64.finite 0)] = some (daysFromCivil 105 1 1 * 86400000) ∧
      utc [AvmValue.number (F64.finite 5)] = F64.finite (daysFromCivil 5 1 1 * 86400000) := by
  refine ⟨?_, ?_, ?_⟩
  · have h := claim_c4_amended.1 5 (by decide) (by decide)
    rw [h]
    decide
  · have h := claim_c4_amended.1 105 (by decide) (by decide)
    rw [h]
    decide
  · exact claim_c4_amended.2.1 5 (by decide) (by decide)

/-- C7: the compute step builds the new instant from the first day of the
resolved month at local midnight plus a flat duration, so a fed day value `v`
shifts the instant by exactly `(v - currentDay)` days (overflow rolls over
via duration arithmetic); in particular `setDate(0)` lands on the last day of
the previous month (rolling into December of the previous year from January)
with the time of day preserved. -/
theorem claim_c7 :
    (∀ t o v : Int,
      naiveMinMs + 200000000000 ≤ t + o * 1000 →
      t + o * 1000 ≤ naiveMaxMs - 200000000000 →
      -86400 < o → o < 86400 → -1000 ≤ v → v ≤ 1000 →
      set_date o (some t) [AvmValue.number (F64.finite v)] =
        (some (t + (v - civilDay (t + o * 1000)) * 86400000),
          F64.finite (t + (v - civilDay (t + o * 1000)) * 86400000))) ∧
    (∀ t o : Int,
      naiveMinMs + 200000000000 ≤ t + o * 1000 →
      t + o * 1000 ≤ naiveMaxMs - 200000000000 →
      -86400 < o → o < 86400 →
      civilYear (t - civilDay (t + o * 1000) * 86400000 + o * 1000) =
          (if civilMonth (t + o * 1000) = 1 then civilYear (t + o * 1000) - 1
            else civilYear (t + o * 1000)) ∧
        civilMonth (t - civilDay (t + o * 1000) * 86400000 + o * 1000) =
          (if civilMonth (t + o * 1000) = 1 then 12 else civilMonth (t + o * 1000) - 1) ∧
        civilDay (t - civilDay (t + o * 1000) * 86400000 + o * 1000) =
          monthLength
            (if civilMonth (t + o * 1000) = 1 then civilYear (t + o * 1000) - 1
              else civilYear (t + o * 1000))
            (if civilMonth (t + o * 1000) = 1 then 12 else civilMonth (t + o * 1000) - 1) ∧
        msOfDay (t - civilDay (t + o * 1000) * 86400000 + o * 1000) =
          msOfDay (t + o * 1000)) := by
  have hmin : naiveMinMs = -8334632851200000 := by decide
  have hmax : naiveMaxMs = 8210298412799999 := by decide
  have hcmin : chronoMinYear = -262144 := rfl
  have hcmax : chronoMaxYear = 262143 := rfl
  have p1 : ∀ t o v : Int,
      naiveMinMs + 200000000000 ≤ t + o * 1000 →
      t + o * 1000 ≤ naiveMaxMs - 200000000000 →
      -86400 < o → o < 86400 → -1000 ≤ v → v ≤ 1000 →
      set_date o (some t) [AvmValue.number (F64.finite v)] =
        (some (t + (v - civilDay (t + o * 1000)) * 86400000),
          F64.finite (t + (v - civilDay (t + o * 1000)) * 86400000)) := by
    intro t o v h1 h2 ho1 ho2 hv1 hv2
    have hrg := civilFromDays_ranges (epochDays (t + o * 1000))
    have hm0 : 0 ≤ civilMonth0 (t + o * 1000) ∧ civilMonth0 (t + o * 1000) ≤ 11 := by
      unfold civilMonth0 civilMonth
      omega
    have hdy : 1 ≤ civilDay (t + o * 1000) ∧ civilDay (t + o * 1000) ≤ 31 := by
      unfold civilDay
      omega
    have hyr := civilYear_range (t + o * 1000) (by omega) (by omega)
    have htd := time_decomposition (t + o * 1000)
    have hvr := view_reconstruct (t + o * 1000)
    have hcal : (DateAdjustment.new.feedDay
        (some (AvmValue.number (F64.finite v)))).calculate o t =
        some (t + (v - civilDay (t + o * 1000)) * 86400000) := by
      simp [DateAdjustment.new, DateAdjustment.feedDay, DateAdjustment.calculate,
        checkValue, checkMappedValue, coerceToNumber, f64AsI64, YearType.adjust]
      rw [clampI64_id v (by omega) (by omega),
        wrapI64_id (civilYear (t + o * 1000)) (by omega) (by omega),
        wrapI32_id (civilYear (t + o * 1000)) (by omega) (by omega)]
      refine ⟨⟨by omega, by omega⟩, ⟨by omega, by omega⟩, by omega⟩
    simp only [set_date, List.get?, DateAdjustment.apply, hcal]
  refine ⟨p1, ?_⟩
  intro t o h1 h2 ho1 ho2
  have hrg := civilFromDays_ranges (epochDays (t + o * 1000))
  have hm1 : 1 ≤ civilMonth (t + o * 1000) ∧ civilMonth (t + o * 1000) ≤ 12 := by
    unfold civilMonth
    omega
  have hdy : 1 ≤ civilDay (t + o * 1000) ∧ civilDay (t + o * 1000) ≤ 31 := by
    unfold civilDay
    omega
  have htd := time_decomposition (t + o * 1000)
  have hvr := view_reconstruct (t + o * 1000)
  have hmsb : 0 ≤ msOfDay (t + o * 1000) ∧ msOfDay (t + o * 1000) < 86400000 := by
    unfold msOfDay
    omega
  have hadj := prev_month_last_day (civilYear (t + o * 1000)) (civilMonth (t + o * 1000))
    hm1.1 hm1.2
  have hmb := monthLength_bounds
    (if civilMonth (t + o * 1000) = 1 then civilYear (t + o * 1000) - 1
      else civilYear (t + o * 1000))
    (if civilMonth (t + o * 1000) = 1 then 12 else civilMonth (t + o * 1000) - 1)
  have hpm : 1 ≤ (if civilMonth (t + o * 1000) = 1 then 12
      else civilMonth (t + o * 1000) - 1) ∧
      (if civilMonth (t + o * 1000) = 1 then 12 else civilMonth (t + o * 1000) - 1) ≤ 12 := by
    split_ifs <;> omega
  have hc1 : civilMonth0 (t + o * 1000) + 1 = civilMonth (t + o * 1000) := by
    unfold civilMonth0
    ring
  have hview := civil_view_of
    (daysFromCivil (civilYear (t + o * 1000)) (civilMonth (t + o * 1000)) 1 - 1)
    (msOfDay (t + o * 1000))
    (if civilMonth (t + o * 1000) = 1 then civilYear (t + o * 1000) - 1
      else civilYear (t + o * 1000))
    (if civilMonth (t + o * 1000) = 1 then 12 else civilMonth (t + o * 1000) - 1)
    (monthLength
      (if civilMonth (t + o * 1000) = 1 then civilYear (t + o * 1000) - 1
        else civilYear (t + o * 1000))
      (if civilMonth (t + o * 1000) = 1 then 12 else civilMonth (t + o * 1000) - 1))
    hmsb.1 hmsb.2 hpm.1 hpm.2 (by omega) (le_refl _) hadj
  have heq : t - civilDay (t + o * 1000) * 86400000 + o * 1000 =
      (daysFromCivil (civilYear (t + o * 1000)) (civilMonth (t + o * 1000)) 1 - 1) *
        86400000 + msOfDay (t + o * 1000) := by
    rw [← hc1] at *
    omega
  rw [heq]
  have hcm0 : civilMonth0
      ((daysFromCivil (civilYear (t + o * 1000)) (civilMonth (t + o * 1000)) 1 - 1) *
        86400000 + msOfDay (t + o * 1000)) =
      civilMonth
        ((daysFromCivil (civilYear (t + o * 1000)) (civilMonth (t + o * 1000)) 1 - 1) *
          86400000 + msOfDay (t + o * 1000)) - 1 := rfl
  have hv2 := hview.2.1
  exact ⟨hview.1, by omega, hview.2.2.1, hview.2.2.2⟩

/-- Witness for C7 at 1970-03-15T00:00:00Z, UTC: `setDate(0)` lands on
1970-02-28 (the last day of February). -/
theorem claim_c7_witness :
    set_date 0 (some 6307200000) [AvmValue.number (F64.finite 0)] =
        (some (6307200000 + (0 - civilDay (6307200000 + 0 * 1000)) * 86400000),
          F64.finite (6307200000 + (0 - civilDay (6307200000 + 0 * 1000)) * 86400000)) ∧
      civilDay (6307200000 - civilDay (6307200000 + 0 * 1000) * 86400000 + 0 * 1000) =
        monthLength
          (if civilMonth (6307200000 + 0 * 1000) = 1 then civilYear (6307200000 + 0 * 1000) - 1
            else civilYear (6307200000 + 0 * 1000))
          (if civilMonth (6307200000 + 0 * 1000) = 1 then 12
            else civilMonth (6307200000 + 0 * 1000) - 1) :=
  ⟨claim_c7.1 6307200000 0 0 (by decide) (by decide) (by decide) (by decide) (by decide)
      (by decide),
    (claim_c7.2 6307200000 0 (by decide) (by decide) (by decide) (by decide)).2.2.1⟩

/-- Counterexample to C3 as stated: on 1970-01-31 (UTC), `setMonth(13)` does
not leave the day of month unchanged — the target February of 1971 is too
short, so duration arithmetic rolls the result to 1971-03-03 (month0 = 2,
day = 3), not month0 = 1 with day 31. -/
theorem claim_c3_counterexample :
    month 0 (set_month 0 (some 2592000000) [AvmValue.number (F64.finite 13)]).1 =
        F64.finite 2 ∧
      date 0 (set_month 0 (some 2592000000) [AvmValue.number (F64.finite 13)]).1 =
        F64.finite 3 ∧
      full_year 0 (set_month 0 (some 2592000000) [AvmValue.number (F64.finite 13)]).1 =
        F64.finite 1971 ∧
      ¬(month 0 (set_month 0 (some 2592000000) [AvmValue.number (F64.finite 13)]).1 =
          F64.finite 1 ∧
        date 0 (set_month 0 (some 2592000000) [AvmValue.number (F64.finite 13)]).1 =
          F64.finite 31) := by
  refine ⟨by decide, by decide, by decide, by decide⟩

/-- C3 (amended): a specified finite month value `m` resolves to
`m.rem_euclid(12)` (in `[0, 11]`) and contributes `m.div_euclid(12)` to the
resolved year, so `setMonth(m)` behaves exactly like
`setFullYear(year + m/12, m % 12, currentDay)`; in particular `setMonth(13)`
on a date whose day of month is at most 28 rolls to month 1 (0-based) of the
next year with day and time of day unchanged.  (For day-of-month 29–31 the
short target February makes duration arithmetic roll further, which is the
correction to the claim.) -/
theorem claim_c3_amended :
    (∀ t o m : Int,
      naiveMinMs + 4000000000000 ≤ t + o * 1000 →
      t + o * 1000 ≤ naiveMaxMs - 4000000000000 →
      -86400 < o → o < 86400 → -1200 ≤ m → m ≤ 1200 →
      set_month o (some t) [AvmValue.number (F64.finite m)] =
        set_full_year o (some t)
          [AvmValue.number (F64.finite (civilYear (t + o * 1000) + m / 12)),
            AvmValue.number (F64.finite (m % 12)),
            AvmValue.number (F64.finite (civilDay (t + o * 1000)))]) ∧
    (∀ t o : Int,
      naiveMinMs + 4000000000000 ≤ t + o * 1000 →
      t + o * 1000 ≤ naiveMaxMs - 4000000000000 →
      -86400 < o → o < 86400 → civilDay (t + o * 1000) ≤ 28 →
      ∃ r : Int,
        set_month o (some t) [AvmValue.number (F64.finite 13)] = (some r, F64.finite r) ∧
          civilYear (r + o * 1000) = civilYear (t + o * 1000) + 1 ∧
          civilMonth0 (r + o * 1000) = 1 ∧
          civilDay (r + o * 1000) = civilDay (t + o * 1000) ∧
          civilHour (r + o * 1000) = civilHour (t + o * 1000) ∧
          civilMinute (r + o * 1000) = civilMinute (t + o * 1000) ∧
          civilSecond (r + o * 1000) = civilSecond (t + o * 1000) ∧
          civilMilli (r + o * 1000) = civilMilli (t + o * 1000)) := by
  have hmin : naiveMinMs = -8334632851200000 := by decide
  have hmax : naiveMaxMs = 8210298412799999 := by decide
  have hcmin : chronoMinYear = -262144 := rfl
  have hcmax : chronoMaxYear = 262143 := rfl
  have hn1 : daysFromCivil 262040 1 1 = 94988617 := by decide
  have hn2 : daysFromCivil (-262040) 1 1 = -96427673 := by decide
  have hn3 : daysFromCivil 262142 12 31 = 95026236 := by decide
  have hn4 : daysFromCivil (-262142) 1 1 = -96464927 := by decide
  have hcalM : ∀ t o m : Int,
      naiveMinMs + 4000000000000 ≤ t + o * 1000 →
      t + o * 1000 ≤ naiveMaxMs - 4000000000000 →
      -86400 < o → o < 86400 → -1200 ≤ m → m ≤ 1200 →
      ((DateAdjustment.new.feedMonth
          (some (AvmValue.number (F64.finite m)))).feedDay none).calculate o t =
        some (daysFromCivil (civilYear (t + o * 1000) + m / 12) (m % 12 + 1) 1 *
            86400000 - o * 1000 +
          ((civilDay (t + o * 1000) - 1) * 86400000 +
            civilHour (t + o * 1000) * 3600000 + civilMinute (t + o * 1000) * 60000 +
            civilSecond (t + o * 1000) * 1000 + civilMilli (t + o * 1000))) := by
    intro t o m h1 h2 ho1 ho2 hm1 hm2
    have hrg := civilFromDays_ranges (epochDays (t + o * 1000))
    have hm0 : 0 ≤ civilMonth0 (t + o * 1000) ∧ civilMonth0 (t + o * 1000) ≤ 11 := by
      unfold civilMonth0 civilMonth
      omega
    have hdy : 1 ≤ civilDay (t + o * 1000) ∧ civilDay (t + o * 1000) ≤ 31 := by
      unfold civilDay
      omega
    have htd := time_decomposition (t + o * 1000)
    have hyu : civilYear (t + o * 1000) < 262040 :=
      civilYear_lt (t + o * 1000) 262040 (by omega)
    have hyl : (-262040 : Int) ≤ civilYear (t + o * 1000) :=
      civilYear_ge (t + o * 1000) (-262040) (by omega)
    have hgmin := daysFromCivil_ge_min (civilYear (t + o * 1000) + m / 12) (-262142)
      (m % 12 + 1) 1 (by omega) (by omega) (by omega) (by omega) (by omega)
    have hgmax := daysFromCivil_le_max (civilYear (t + o * 1000) + m / 12) 262142
      (m % 12 + 1) 1 (by omega) (by omega) (by omega) (by omega) (by omega)
    simp [DateAdjustment.new, DateAdjustment.feedMonth, DateAdjustment.feedDay,
      DateAdjustment.calculate, checkValue, checkMappedValue, coerceToNumber, f64AsI64,
      YearType.adjust]
    rw [clampI64_id m (by omega) (by omega),
      wrapI64_id (civilYear (t + o * 1000) + m / 12) (by omega) (by omega),
      wrapI32_id (civilYear (t + o * 1000) + m / 12) (by omega) (by omega)]
    refine ⟨⟨by omega, by omega⟩, ⟨by omega, by omega⟩, by omega⟩
  constructor
  · intro t o m h1 h2 ho1 ho2 hm1 hm2
    have hrg := civilFromDays_ranges (epochDays (t + o * 1000))
    have hm0 : 0 ≤ civilMonth0 (t + o * 1000) ∧ civilMonth0 (t + o * 1000) ≤ 11 := by
      unfold civilMonth0 civilMonth
      omega
    have hdy : 1 ≤ civilDay (t + o * 1000) ∧ civilDay (t + o * 1000) ≤ 31 := by
      unfold civilDay
      omega
    have htd := time_decomposition (t + o * 1000)
    have hyu : civilYear (t + o * 1000) < 262040 :=
      civilYear_lt (t + o * 1000) 262040 (by omega)
    have hyl : (-262040 : Int) ≤ civilYear (t + o * 1000) :=
      civilYear_ge (t + o * 1000) (-262040) (by omega)
    have hgmin := daysFromCivil_ge_min (civilYear (t + o * 1000) + m / 12) (-262142)
      (m % 12 + 1) 1 (by omega) (by omega) (by omega) (by omega) (by omega)
    have hgmax := daysFromCivil_le_max (civilYear (t + o * 1000) + m / 12) 262142
      (m % 12 + 1) 1 (by omega) (by omega) (by omega) (by omega) (by omega)
    have e1 := hcalM t o m h1 h2 ho1 ho2 hm1 hm2
    have hmm : (m % 12) % 12 = m % 12 := by omega
    have hmd : (m % 12) / 12 = 0 := by omega
    have e2 : (((DateAdjustment.new.feedYear
        (some (AvmValue.number (F64.finite (civilYear (t + o * 1000) + m / 12))))).feedMonth
        (some (AvmValue.number (F64.finite (m % 12))))).feedDay
        (some (AvmValue.number (F64.finite (civilDay (t + o * 1000)))))).calculate o t =
        some (daysFromCivil (civilYear (t + o * 1000) + m / 12) (m % 12 + 1) 1 *
            86400000 - o * 1000 +
          ((civilDay (t + o * 1000) - 1) * 86400000 +
            civilHour (t + o * 1000) * 3600000 + civilMinute (t + o * 1000) * 60000 +
            civilSecond (t + o * 1000) * 1000 + civilMilli (t + o * 1000))) := by
      simp [DateAdjustment.new, DateAdjustment.feedYear, DateAdjustment.feedMonth,
        DateAdjustment.feedDay, DateAdjustment.calculate, checkValue, checkMappedValue,
        coerceToNumber, f64AsI64, YearType.adjust]
      rw [clampI64_id (m % 12) (by omega) (by omega),
        clampI64_id (civilYear (t + o * 1000) + m / 12) (by omega) (by omega),
        clampI64_id (civilDay (t + o * 1000)) (by omega) (by omega), hmm, hmd, add_zero,
        wrapI64_id (civilYear (t + o * 1000) + m / 12) (by omega) (by omega),
        wrapI32_id (civilYear (t + o * 1000) + m / 12) (by omega) (by omega)]
      refine ⟨⟨by omega, by omega⟩, ⟨by omega, by omega⟩, by omega⟩
    simp only [set_month, set_full_year, List.get?, DateAdjustment.apply, e1, e2]
  · intro t o h1 h2 ho1 ho2 hd28
    have hrg := civilFromDays_ranges (epochDays (t + o * 1000))
    have hdy : 1 ≤ civilDay (t + o * 1000) ∧ civilDay (t + o * 1000) ≤ 31 := by
      unfold civilDay
      omega
    have htd := time_decomposition (t + o * 1000)
    have hvr := view_reconstruct (t + o * 1000)
    have hmsb : 0 ≤ msOfDay (t + o * 1000) ∧ msOfDay (t + o * 1000) < 86400000 := by
      unfold msOfDay
      omega
    have e1 := hcalM t o 13 h1 h2 ho1 ho2 (by omega) (by omega)
    have h13a : (13 : Int) / 12 = 1 := by decide
    have h13b : (13 : Int) % 12 = 1 := by decide
    have h13c : (1 : Int) + 1 = 2 := by decide
    rw [h13a, h13b, h13c] at e1
    refine ⟨daysFromCivil (civilYear (t + o * 1000) + 1) 2 1 * 86400000 - o * 1000 +
      ((civilDay (t + o * 1000) - 1) * 86400000 +
        civilHour (t + o * 1000) * 3600000 + civilMinute (t + o * 1000) * 60000 +
        civilSecond (t + o * 1000) * 1000 + civilMilli (t + o * 1000)), ?_, ?_⟩
    · simp only [set_month, List.get?, DateAdjustment.apply, e1]
    · have hlin := daysFromCivil_day_linear (civilYear (t + o * 1000) + 1) 2
        (civilDay (t + o * 1000))
      have hml := monthLength_bounds (civilYear (t + o * 1000) + 1) 2
      have hview := civil_view_of
        (daysFromCivil (civilYear (t + o * 1000) + 1) 2 (civilDay (t + o * 1000)))
        (msOfDay (t + o * 1000)) (civilYear (t + o * 1000) + 1) 2
        (civilDay (t + o * 1000)) hmsb.1 hmsb.2 (by omega) (by omega) hdy.1
        (by omega) rfl
      have heq : daysFromCivil (civilYear (t + o * 1000) + 1) 2 1 * 86400000 - o * 1000 +
          ((civilDay (t + o * 1000) - 1) * 86400000 +
            civilHour (t + o * 1000) * 3600000 + civilMinute (t + o * 1000) * 60000 +
            civilSecond (t + o * 1000) * 1000 + civilMilli (t + o * 1000)) + o * 1000 =
          daysFromCivil (civilYear (t + o * 1000) + 1) 2 (civilDay (t + o * 1000)) *
            86400000 + msOfDay (t + o * 1000) := by
        omega
      rw [heq]
      have hcm0 : civilMonth0
          (daysFromCivil (civilYear (t + o * 1000) + 1) 2 (civilDay (t + o * 1000)) *
            86400000 + msOfDay (t + o * 1000)) =
          civilMonth
            (daysFromCivil (civilYear (t + o * 1000) + 1) 2 (civilDay (t + o * 1000)) *
              86400000 + msOfDay (t + o * 1000)) - 1 := rfl
      have hv2 := hview.2.1
      have hmseq := hview.2.2.2
      refine ⟨hview.1, by omega, hview.2.2.1, ?_, ?_, ?_, ?_⟩
      · show civilHour _ = _
        unfold civilHour
        rw [hmseq]
      · show civilMinute _ = _
        unfold civilMinute
        rw [hmseq]
      · show civilSecond _ = _
        unfold civilSecond
        rw [hmseq]
      · show civilMilli _ = _
        unfold civilMilli msOfDay at *
        omega

/-- Witness for the amended C3: `setMonth(25)` on the epoch equals
`setFullYear(year+2, 1, day)`, and `setMonth(13)` on 1970-01-15 rolls to
1971-02-15 with the time of day unchanged. -/
theorem claim_c3_amended_witness :
    set_month 0 (some 0) [AvmValue.number (F64.finite 25)] =
        set_full_year 0 (some 0)
          [AvmValue.number (F64.finite (civilYear (0 + 0 * 1000) + 25 / 12)),
            AvmValue.number (F64.finite (25 % 12)),
            AvmValue.number (F64.finite (civilDay (0 + 0 * 1000)))] ∧
      (∃ r : Int,
        set_month 0 (some 1209600000) [AvmValue.number (F64.finite 13)] =
            (some r, F64.finite r) ∧
          civilYear (r + 0 * 1000) = civilYear (1209600000 + 0 * 1000) + 1 ∧
          civilMonth0 (r + 0 * 1000) = 1 ∧
          civilDay (r + 0 * 1000) = civilDay (1209600000 + 0 * 1000) ∧
          civilHour (r + 0 * 1000) = civilHour (1209600000 + 0 * 1000) ∧
          civilMinute (r + 0 * 1000) = civilMinute (1209600000 + 0 * 1000) ∧
          civilSecond (r + 0 * 1000) = civilSecond (1209600000 + 0 * 1000) ∧
          civilMilli (r + 0 * 1000) = civilMilli (1209600000 + 0 * 1000)) :=
  ⟨claim_c3_amended.1 0 0 25 (by decide) (by decide) (by decide) (by decide) (by decide)
      (by decide),
    claim_c3_amended.2 1209600000 0 (by decide) (by decide) (by decide) (by decide)
      (by decide)⟩
